import Mathlib

/-
Formal model of the PNMixer preferences subsystem, translated from
src/prefs.c and src/callbacks.c (GTK3 / X11 build configuration).

Modelling conventions:
* C strings are `List Char` (named `Str`).
* The GLib `GKeyFile` is modelled at the level it stores data: an ordered
  association list of groups, each an ordered association list of
  (key, raw value string).  The typed getters parse the raw strings with
  parsers mirroring `g_key_file_parse_value_as_{boolean,integer,double}` and
  the string escape rules of `g_key_file_parse_{string_as_value,value_as_string}`.
* The global `keyFile` pointer is an `Option KeyFile`; `none` models the NULL
  pointer that `prefs_load` leaves behind when parsing fails.  GLib functions
  called on a NULL key file run their `g_return_val_if_fail` precondition
  check, which returns that function's guard value (FALSE for booleans, -1
  for integers, -1.0 for doubles, NULL for strings) WITHOUT setting the
  GError (checked-build semantics, GLib 2.74); the model reproduces this.
* `g_key_file_get_string` on a stored value with an invalid escape sequence
  or a trailing backslash sets the GError but still returns the leniently
  unescaped string (known escapes decoded, unknown escapes kept verbatim, a
  trailing backslash dropped); `unescapeLenient` models this pair of output
  and error flag.
* `gdouble` values are modelled as exact decimal numbers `DecD` (a value
  m / 10^e).  Every IEEE double is such a number, and the
  `g_ascii_dtostr`/`g_ascii_strtod` pair used by GKeyFile round-trips doubles
  exactly; the model prints the exact decimal form.  Scientific notation is
  not modelled (the encoder never emits it).
* The on-disk file is modelled structurally: `FileData.good kf` stands for a
  well-formed key-file text whose parse is `kf` (the documented
  `g_key_file_to_data` / `g_key_file_load_from_file` inverse contract), and
  `FileData.bad` for an unparsable file.
-/

set_option maxRecDepth 20000

abbrev Str := List Char

def str (s : String) : Str := s.data

/-! ### Decimal digits -/

def digChar : Nat → Char
  | 0 => '0'
  | 1 => '1'
  | 2 => '2'
  | 3 => '3'
  | 4 => '4'
  | 5 => '5'
  | 6 => '6'
  | 7 => '7'
  | 8 => '8'
  | 9 => '9'
  | _ => '*'

def charVal (c : Char) : Option Nat :=
  if c = '0' then some 0
  else if c = '1' then some 1
  else if c = '2' then some 2
  else if c = '3' then some 3
  else if c = '4' then some 4
  else if c = '5' then some 5
  else if c = '6' then some 6
  else if c = '7' then some 7
  else if c = '8' then some 8
  else if c = '9' then some 9
  else none

def isDigitCh (c : Char) : Bool := (charVal c).isSome

def isSpaceCh (c : Char) : Bool :=
  c = ' ' || c = '\t' || c = '\n' || c = '\r'

/-- Base-10 digits of `n`, least significant first (fuel-based so that it
reduces in the kernel; agrees with `Nat.digits 10` for sufficient fuel). -/
def lsbDigits : Nat → Nat → List Nat
  | 0, _ => []
  | fuel + 1, n => if n = 0 then [] else n % 10 :: lsbDigits fuel (n / 10)

/-- Decimal rendering of a natural number, as `printf %u` would produce. -/
def natEnc (n : Nat) : Str :=
  if n = 0 then ['0'] else (lsbDigits (n + 1) n).reverse.map digChar

/-- Fold a digit string into a number; `none` on the first non-digit. -/
def parseDigitsAcc : Nat → Str → Option Nat
  | acc, [] => some acc
  | acc, c :: t =>
    match charVal c with
    | some d => parseDigitsAcc (acc * 10 + d) t
    | none => none

/-- Parse a non-empty all-digit string. -/
def parseNatAll : Str → Option Nat
  | [] => none
  | c :: t => if (c :: t).all isDigitCh then parseDigitsAcc 0 (c :: t) else none

/-- Longest digit prefix and the remainder. -/
def spanDigits : Str → Str × Str
  | [] => ([], [])
  | c :: t =>
    if isDigitCh c then
      let r := spanDigits t
      (c :: r.1, r.2)
    else ([], c :: t)

/-! ### Boolean values (`g_key_file_parse_value_as_boolean` / `set_boolean`) -/

def gboolEnc (b : Bool) : Str := if b then str "true" else str "false"

def parseGbool (s : Str) : Option Bool :=
  if s = str "true" ∨ s = str "1" then some true
  else if s = str "false" ∨ s = str "0" then some false
  else none

/-! ### Integer values (`%d` / `g_ascii_strtoll` with gint range check) -/

def gintEnc (v : Int) : Str :=
  if v < 0 then '-' :: natEnc v.natAbs else natEnc v.natAbs

/-- gint range filter applied by `g_key_file_parse_value_as_integer`. -/
def gintRange (v : Int) : Option Int :=
  if -2147483648 ≤ v ∧ v ≤ 2147483647 then some v else none

def parseGintAfterWs : Str → Option Int
  | [] => none
  | c :: t =>
    if c = '-' then (parseNatAll t).bind fun n => gintRange (-(n : Int))
    else if c = '+' then (parseNatAll t).bind fun n => gintRange (n : Int)
    else (parseNatAll (c :: t)).bind fun n => gintRange (n : Int)

def parseGint (s : Str) : Option Int :=
  parseGintAfterWs (s.dropWhile isSpaceCh)

/-! ### Double values

`DecD` is the exact decimal `m / 10 ^ e`.  Every IEEE double is such a
number, so this is a faithful value domain for `gdouble` as used here. -/

structure DecD where
  m : Int
  e : Nat
deriving DecidableEq

/-- Exactly `e` decimal digits of `n` (leading zeros kept); requires `n < 10^e`
to be the fraction digits of `n / 10^e`. -/
def fracEnc : Nat → Nat → Str
  | _, 0 => []
  | n, e + 1 => digChar (n / 10 ^ e) :: fracEnc (n % 10 ^ e) e

/-- Decimal rendering of a `gdouble`, modelling the exact round-trip
guarantee of `g_ascii_dtostr`. -/
def encDouble (d : DecD) : Str :=
  (if d.m < 0 then ['-'] else []) ++ natEnc (d.m.natAbs / 10 ^ d.e) ++
    (if d.e = 0 then [] else '.' :: fracEnc (d.m.natAbs % 10 ^ d.e) d.e)

def mkDecD (neg : Bool) (ip fp : Nat) (flen : Nat) : DecD :=
  ⟨(if neg then -1 else 1) * ((ip : Int) * 10 ^ flen + fp), flen⟩

/-- Decimal parser modelling `g_ascii_strtod` followed by the
"whole string consumed" check of `g_key_file_parse_value_as_double`. -/
def parseGdoubleBody (neg : Bool) (s : Str) : Option DecD :=
  let sp := spanDigits s
  if sp.2 = [] then (parseNatAll sp.1).map fun v => mkDecD neg v 0 0
  else if sp.2.head? = some '.' then
    let fp := spanDigits sp.2.tail
    if fp.2 = [] then
      if sp.1 = [] ∧ fp.1 = [] then none
      else
        some (mkDecD neg ((parseDigitsAcc 0 sp.1).getD 0)
          ((parseDigitsAcc 0 fp.1).getD 0) fp.1.length)
    else none
  else none

def parseGdoubleAfterWs : Str → Option DecD
  | [] => none
  | c :: t =>
    if c = '-' then parseGdoubleBody true t
    else if c = '+' then parseGdoubleBody false t
    else parseGdoubleBody false (c :: t)

def parseGdouble (s : Str) : Option DecD :=
  parseGdoubleAfterWs (s.dropWhile isSpaceCh)

/-! ### Double lists (`g_key_file_{set,get}_double_list`, separator ';') -/

def encDoubleList (l : List DecD) : Str :=
  (l.map fun d => encDouble d ++ [';']).flatten

def splitSemiAux : Str → Str → List Str
  | cur, [] => if cur = [] then [] else [cur.reverse]
  | cur, c :: t => if c = ';' then cur.reverse :: splitSemiAux [] t else splitSemiAux (c :: cur) t

def splitSemi (s : Str) : List Str := splitSemiAux [] s

def parseGdoubleList (s : Str) : Option (List DecD) :=
  (splitSemi s).mapM parseGdouble

/-! ### String values (escape on set, unescape on get) -/

/-- `g_key_file_parse_string_as_value`: escape backslash and control
characters everywhere, and a space only in the first position. -/
def escChar (c : Char) : Str :=
  if c = '\\' then ['\\', '\\']
  else if c = '\n' then ['\\', 'n']
  else if c = '\t' then ['\\', 't']
  else if c = '\r' then ['\\', 'r']
  else [c]

def escString (s : Str) : Str :=
  match s with
  | [] => []
  | c :: t => (if c = ' ' then ['\\', 's'] else escChar c) ++ (t.map escChar).flatten

def unescChar (e : Char) : Option Char :=
  if e = 's' then some ' '
  else if e = 'n' then some '\n'
  else if e = 't' then some '\t'
  else if e = 'r' then some '\r'
  else if e = '\\' then some '\\'
  else none

/-- `g_key_file_parse_value_as_string`: returns the leniently unescaped
string together with the error flag.  A known escape is decoded; an unknown
escape sequence copies both characters to the output verbatim and sets the
`G_KEY_FILE_ERROR_INVALID_VALUE` error while processing continues; a
trailing backslash sets the error and is dropped. -/
def unescapeLenient : Str → Str × Bool
  | [] => ([], false)
  | [c] => if c = '\\' then ([], true) else ([c], false)
  | c :: e :: t2 =>
    if c = '\\' then
      match unescChar e with
      | none => ('\\' :: e :: (unescapeLenient t2).1, true)
      | some u => (u :: (unescapeLenient t2).1, (unescapeLenient t2).2)
    else (c :: (unescapeLenient (e :: t2)).1, (unescapeLenient (e :: t2)).2)

/-! ### The key file store -/

def assocGet : List (Str × Str) → Str → Option Str
  | [], _ => none
  | (k, v) :: t, key => if k = key then some v else assocGet t key

def assocSet : List (Str × Str) → Str → Str → List (Str × Str)
  | [], key, v => [(key, v)]
  | (k, w) :: t, key, v =>
    if k = key then (k, v) :: t else (k, w) :: assocSet t key v

def groupsGet : List (Str × List (Str × Str)) → Str → Option (List (Str × Str))
  | [], _ => none
  | (g, es) :: t, name => if g = name then some es else groupsGet t name

def groupsSet : List (Str × List (Str × Str)) → Str → Str → Str →
    List (Str × List (Str × Str))
  | [], name, key, v => [(name, [(key, v)])]
  | (g, es) :: t, name, key, v =>
    if g = name then (g, assocSet es key v) :: t else (g, es) :: groupsSet t name key v

structure KeyFile where
  groups : List (Str × List (Str × Str))
deriving DecidableEq

def getValue (kf : KeyFile) (g k : Str) : Option Str :=
  (groupsGet kf.groups g).bind fun es => assocGet es k

def setValue (kf : KeyFile) (g k v : Str) : KeyFile :=
  ⟨groupsSet kf.groups g k v⟩

/-- `g_key_file_set_value` through a possibly-NULL key file pointer
(`g_return_if_fail` makes the NULL case a no-op). -/
def kfSet (kf : Option KeyFile) (g k v : Str) : Option KeyFile :=
  kf.map fun f => setValue f g k v

def kfGetRaw (kf : Option KeyFile) (g k : Str) : Option Str :=
  kf.bind fun f => getValue f g k

/-- Result of a GLib getter: the C return value plus whether a `GError` was
set.  On a NULL key file the precondition check returns that getter's guard
value (FALSE, -1, -1.0 or NULL) with NO error. -/
structure GRes (α : Type) where
  ret : α
  err : Bool
deriving DecidableEq

def gkfGetBoolean (kf : Option KeyFile) (g k : Str) : GRes Bool :=
  match kf with
  | none => ⟨false, false⟩
  | some f =>
    match getValue f g k with
    | none => ⟨false, true⟩
    | some s =>
      match parseGbool s with
      | none => ⟨false, true⟩
      | some b => ⟨b, false⟩

def gkfGetInteger (kf : Option KeyFile) (g k : Str) : GRes Int :=
  match kf with
  | none => ⟨-1, false⟩
  | some f =>
    match getValue f g k with
    | none => ⟨0, true⟩
    | some s =>
      match parseGint s with
      | none => ⟨0, true⟩
      | some v => ⟨v, false⟩

def gkfGetDouble (kf : Option KeyFile) (g k : Str) : GRes DecD :=
  match kf with
  | none => ⟨⟨-1, 0⟩, false⟩
  | some f =>
    match getValue f g k with
    | none => ⟨⟨0, 0⟩, true⟩
    | some s =>
      match parseGdouble s with
      | none => ⟨⟨0, 0⟩, true⟩
      | some v => ⟨v, false⟩

def gkfGetString (kf : Option KeyFile) (g k : Str) : GRes (Option Str) :=
  match kf with
  | none => ⟨none, false⟩
  | some f =>
    match getValue f g k with
    | none => ⟨none, true⟩
    | some raw => ⟨some (unescapeLenient raw).1, (unescapeLenient raw).2⟩

def gkfGetDoubleList (kf : Option KeyFile) (g k : Str) : Option (List DecD) :=
  match kf with
  | none => none
  | some f => (getValue f g k).bind parseGdoubleList

def pnmixerG : Str := str "PNMixer"

/-! ### prefs.c getters and setters -/

/-- `prefs_get_boolean` (prefs.c:77): default on error. -/
def prefs_get_boolean (kf : Option KeyFile) (key : Str) (dflt : Bool) : Bool :=
  let r := gkfGetBoolean kf pnmixerG key
  if r.err then dflt else r.ret

/-- `prefs_get_integer` (prefs.c:98). -/
def prefs_get_integer (kf : Option KeyFile) (key : Str) (dflt : Int) : Int :=
  let r := gkfGetInteger kf pnmixerG key
  if r.err then dflt else r.ret

/-- `prefs_get_double` (prefs.c:119). -/
def prefs_get_double (kf : Option KeyFile) (key : Str) (dflt : DecD) : DecD :=
  let r := gkfGetDouble kf pnmixerG key
  if r.err then dflt else r.ret

/-- `prefs_get_string` (prefs.c:140); `none` is a NULL `gchar *`
(`g_strdup(NULL)` is NULL). -/
def prefs_get_string (kf : Option KeyFile) (key : Str) (dflt : Option Str) : Option Str :=
  let r := gkfGetString kf pnmixerG key
  if r.err then dflt else r.ret

/-- `prefs_get_channel` (prefs.c:162): NULL guard on the card, then a plain
`g_key_file_get_string` with the error ignored. -/
def prefs_get_channel (kf : Option KeyFile) (card : Option Str) : Option Str :=
  match card with
  | none => none
  | some c => (gkfGetString kf c (str "Channel")).ret

/-- The string getter of the spec, generalized over the section: return the
per-call default exactly when the underlying GLib getter set an error. -/
def getStringIn (kf : Option KeyFile) (g k : Str) (dflt : Option Str) : Option Str :=
  let r := gkfGetString kf g k
  if r.err then dflt else r.ret

def prefs_set_boolean (kf : Option KeyFile) (key : Str) (v : Bool) : Option KeyFile :=
  kfSet kf pnmixerG key (gboolEnc v)

def prefs_set_integer (kf : Option KeyFile) (key : Str) (v : Int) : Option KeyFile :=
  kfSet kf pnmixerG key (gintEnc v)

def prefs_set_double (kf : Option KeyFile) (key : Str) (v : DecD) : Option KeyFile :=
  kfSet kf pnmixerG key (encDouble v)

def prefs_set_string (kf : Option KeyFile) (key v : Str) : Option KeyFile :=
  kfSet kf pnmixerG key (escString v)

/-- `prefs_set_channel` (prefs.c:299): string value under the card's section. -/
def prefs_set_channel (kf : Option KeyFile) (card chan : Str) : Option KeyFile :=
  kfSet kf card (str "Channel") (escString chan)

def prefs_set_vol_meter_colors (kf : Option KeyFile) (colors : List DecD) : Option KeyFile :=
  kfSet kf pnmixerG (str "VolMeterColor") (encDoubleList colors)

/-- Built-in fallback colour triple of `prefs_get_vol_meter_colors`
(0.909803921569, 0.43137254902, 0.43137254902). -/
def defaultColorTriple : List DecD :=
  [⟨909803921569, 12⟩, ⟨43137254902, 11⟩, ⟨43137254902, 11⟩]

/-- The clamp of one colour component: `< 0 ↦ 0`, `> 1 ↦ 1`
(`m / 10^e > 1 ↔ m > 10^e` for `m ≥ 0`). -/
def clampD (d : DecD) : DecD :=
  if d.m < 0 then ⟨0, 0⟩ else if 10 ^ d.e < d.m then ⟨1, 0⟩ else d

/-- The `for (i = 0; i < 3; i++)` clamp loop: it touches exactly indices
0..2.  For a stored list shorter than 3 the C code reads and writes past the
allocation (undefined behaviour); the model clamps the indices that exist. -/
def clampN : Nat → List DecD → List DecD
  | 0, l => l
  | _ + 1, [] => []
  | n + 1, d :: t => clampD d :: clampN n t

/-- `prefs_get_vol_meter_colors` (prefs.c:219): the stored double list if it
parses, else the built-in triple; then the 3-iteration clamp loop. -/
def prefs_get_vol_meter_colors (kf : Option KeyFile) : List DecD :=
  clampN 3
    (match gkfGetDoubleList kf pnmixerG (str "VolMeterColor") with
     | none => defaultColorTriple
     | some cs => cs)

/-! ### Load and save -/

/-- On-disk config file content, modelled through the documented
`g_key_file_to_data` / `g_key_file_load_from_file` inverse contract:
`good kf` is a well-formed text parsing to `kf`, `bad` an unparsable one. -/
inductive FileData where
  | good (kf : KeyFile)
  | bad
deriving DecidableEq

/-- The parsed content of the embedded DEFAULT_PREFS document (prefs.c:52). -/
def defaultKeyFile : KeyFile :=
  ⟨[(pnmixerG,
    [ (str "SliderOrientation", str "vertical"),
      (str "DisplayTextVolume", str "true"),
      (str "TextVolumePosition", str "0"),
      (str "ScrollStep", str "5"),
      (str "FineScrollStep", str "1"),
      (str "HotkeyVolumeStep", str "1"),
      (str "MiddleClickAction", str "0"),
      (str "CustomCommand", str ""),
      (str "VolMuteKey", str "-1"),
      (str "VolUpKey", str "-1"),
      (str "VolDownKey", str "-1"),
      (str "AlsaCard", str "default"),
      (str "SystemTheme", str "false") ])]⟩

/-- `prefs_load` (prefs.c:323).  The store is fully replaced.  When the file
exists but fails to parse, the key file is freed and the global pointer left
NULL (`none`); when no file exists the embedded default document is parsed
(which always succeeds). -/
def prefs_load (fs : Option FileData) : Option KeyFile :=
  match fs with
  | some (.good kf) => some kf
  | some .bad => none
  | none => some defaultKeyFile

/-- State of the `~/.config/pnmixer` directory. -/
inductive DirState where
  | missing
  | isDir
  | isFile
deriving DecidableEq

/-- `prefs_ensure_save_dir` (prefs.c:384): create the directory when absent;
report (second component `true`) when it exists as a non-directory or when
`g_mkdir` fails; never fatal. -/
def prefs_ensure_save_dir (dir : DirState) (mkdirOk : Bool) : DirState × Bool :=
  match dir with
  | .isDir => (.isDir, false)
  | .isFile => (.isFile, true)
  | .missing => if mkdirOk then (.isDir, false) else (.missing, true)

/-- `prefs_save` (prefs.c:360): serialize the whole store and write it with
`g_file_set_contents` (whole-file replace).  The write succeeds only when the
parent directory exists and the disk cooperates (`writeOk`); on failure the
error is reported (second component `true`) and the old file is untouched.
With a NULL store the serializer's precondition check fails and nothing
usable is written; the error path reports. -/
def prefs_save (kf : Option KeyFile) (dir : DirState) (fs : Option FileData)
    (writeOk : Bool) : Option FileData × Bool :=
  match kf with
  | none => (fs, true)
  | some f =>
    match dir, writeOk with
    | .isDir, true => (some (.good f), false)
    | _, _ => (fs, true)

structure SaveOutcome where
  dir : DirState
  dirError : Bool
  fs : Option FileData
  writeError : Bool
deriving DecidableEq

/-- Modelled from the spec: the spec's `save()` folds directory creation into
the save operation, while in the source `prefs_ensure_save_dir` is wired in
front of `prefs_save` by the application shell (main.c), which is not under
src/.  The composite runs the two src/ functions in that order. -/
def save_pathway (kf : Option KeyFile) (dir : DirState) (fs : Option FileData)
    (mkdirOk writeOk : Bool) : SaveOutcome :=
  let d := prefs_ensure_save_dir dir mkdirOk
  let w := prefs_save kf d.1 fs writeOk
  ⟨d.1, d.2, w.1, w.2⟩

/-! ### Modifier masks and the accelerator codec

GDK modifier state restricted to `gtk_accelerator_get_default_mod_mask()`
(Shift, Control, Mod1/Alt, Super, Hyper, Meta), as a record of bits.  On the
X11 build the primary accelerator modifier is Control, which
`gtk_accelerator_name` prints as "<Primary>". -/

structure GdkMods where
  shift : Bool
  control : Bool
  mod1 : Bool
  super : Bool
  hyper : Bool
  meta : Bool
deriving DecidableEq

def noMods : GdkMods := ⟨false, false, false, false, false, false⟩

/-- `state &= ~consumed` restricted to the default mod mask. -/
def cleanState (s c : GdkMods) : GdkMods :=
  ⟨s.shift && !c.shift, s.control && !c.control, s.mod1 && !c.mod1,
   s.super && !c.super, s.hyper && !c.hyper, s.meta && !c.meta⟩

/-- `gdk_keyval_name` restricted to the alphanumeric keysyms the model covers
(for ASCII letters and digits the GDK name is the character itself); other
keysyms get a placeholder name. -/
def keyvalName (kv : Nat) : Str :=
  if (48 ≤ kv ∧ kv ≤ 57) ∨ (97 ≤ kv ∧ kv ≤ 122) ∨ (65 ≤ kv ∧ kv ≤ 90) then
    [Char.ofNat kv]
  else 'U' :: natEnc kv

/-- `gtk_accelerator_name` (GTK3, X11): "<Primary>" for the Control bit, then
the remaining modifier names, then the keysym name. -/
def accelName (kv : Nat) (mods : GdkMods) : Str :=
  (if mods.control then str "<Primary>" else []) ++
  (if mods.shift then str "<Shift>" else []) ++
  (if mods.mod1 then str "<Alt>" else []) ++
  (if mods.super then str "<Super>" else []) ++
  (if mods.hyper then str "<Hyper>" else []) ++
  (if mods.meta then str "<Meta>" else []) ++
  keyvalName kv

def dropLit (p s : Str) : Option Str :=
  if s.take p.length = p then some (s.drop p.length) else none

def isAlnumCh (c : Char) : Bool :=
  (48 ≤ c.toNat && c.toNat ≤ 57) || (97 ≤ c.toNat && c.toNat ≤ 122) ||
    (65 ≤ c.toNat && c.toNat ≤ 90)

/-- `gtk_accelerator_parse` on the model's accelerator texts: strip modifier
names, then a single alphanumeric key character; any failure yields
`(0, noMods)` exactly as the GTK parser zeroes both out-parameters
(in particular the "(None)" sentinel parses to keysym 0). -/
def accelParseLoop : Nat → Str → GdkMods → Nat × GdkMods
  | 0, _, _ => (0, noMods)
  | fuel + 1, s, mods =>
    match dropLit (str "<Primary>") s with
    | some r => accelParseLoop fuel r { mods with control := true }
    | none =>
    match dropLit (str "<Shift>") s with
    | some r => accelParseLoop fuel r { mods with shift := true }
    | none =>
    match dropLit (str "<Alt>") s with
    | some r => accelParseLoop fuel r { mods with mod1 := true }
    | none =>
    match dropLit (str "<Super>") s with
    | some r => accelParseLoop fuel r { mods with super := true }
    | none =>
    match dropLit (str "<Hyper>") s with
    | some r => accelParseLoop fuel r { mods with hyper := true }
    | none =>
    match dropLit (str "<Meta>") s with
    | some r => accelParseLoop fuel r { mods with meta := true }
    | none =>
    match s with
    | [c] => if isAlnumCh c then (c.toNat, mods) else (0, noMods)
    | _ => (0, noMods)

def accelParse (s : Str) : Nat × GdkMods :=
  accelParseLoop (s.length + 1) s noMods

/-- The integer GDK stores for a modifier record (the bit values of
GDK_SHIFT_MASK, GDK_CONTROL_MASK, GDK_MOD1_MASK, GDK_SUPER/HYPER/META_MASK). -/
def modsToInt (m : GdkMods) : Int :=
  (if m.shift then 1 else 0) + (if m.control then 4 else 0) +
  (if m.mod1 then 8 else 0) + (if m.super then 67108864 else 0) +
  (if m.hyper then 134217728 else 0) + (if m.meta then 268435456 else 0)

/-- `XKeysymToKeycode`, an opaque injective external keymap lookup; the model
uses the keysym itself as the keycode handle (no claim depends on the
concrete mapping). -/
def keycodeOfKeysym (sym : Nat) : Int := sym

/-- The `gtk_accelerator_parse` + `XKeysymToKeycode` block of
`on_ok_button_clicked` (callbacks.c:308): keysym 0 becomes keycode -1. -/
def accelLabelToKeyCodeMods (label : Str) : Int × Int :=
  let p := accelParse label
  (if p.1 ≠ 0 then keycodeOfKeysym p.1 else -1, modsToInt p.2)

/-! ### apply_prefs -/

inductive AppEffect where
  | setPageIncrement (v : Int)
  | setStepIncrement (v : Int)
  | grabKeys (mk uk dk mm um dm hstep : Int)
  | setNotifyOptions
  | setVolMeterColor (r g b : DecD)
  | updateStatusIcons
  | updateVolText
  | alsaReinit
deriving DecidableEq

/-- The `grab_keys` call of `apply_prefs` (prefs.c:437): stored keys when
EnableHotKeys is true, otherwise the unset sentinel for everything
("will actually just ungrab everything"). -/
def grabEffect (kf : Option KeyFile) : AppEffect :=
  if prefs_get_boolean kf (str "EnableHotKeys") false then
    .grabKeys (prefs_get_integer kf (str "VolMuteKey") (-1))
      (prefs_get_integer kf (str "VolUpKey") (-1))
      (prefs_get_integer kf (str "VolDownKey") (-1))
      (prefs_get_integer kf (str "VolMuteMods") 0)
      (prefs_get_integer kf (str "VolUpMods") 0)
      (prefs_get_integer kf (str "VolDownMods") 0)
      (prefs_get_integer kf (str "HotkeyVolumeStep") 1)
  else .grabKeys (-1) (-1) (-1) 0 0 0 1

/-- `apply_prefs` (prefs.c:426) as its sequence of collaborator calls. -/
def apply_prefs (kf : Option KeyFile) (alsa_change : Int) : List AppEffect :=
  let clrs := prefs_get_vol_meter_colors kf
  [ .setPageIncrement (prefs_get_integer kf (str "ScrollStep") 5),
    .setStepIncrement (prefs_get_integer kf (str "FineScrollStep") 1),
    grabEffect kf,
    .setNotifyOptions,
    .setVolMeterColor (clrs.getD 0 ⟨0, 0⟩) (clrs.getD 1 ⟨0, 0⟩) (clrs.getD 2 ⟨0, 0⟩),
    .updateStatusIcons,
    .updateVolText ] ++
  (if alsa_change = 0 then [] else [.alsaReinit])

/-! ### The preferences commit (on_ok_button_clicked) -/

/-- The widget values the OK handler reads out of the preferences window. -/
structure PrefsUI where
  sliderOrientation : Str
  displayTextVolume : Bool
  textVolumePosition : Int
  drawVolMeter : Bool
  volMeterPos : Int
  colR : DecD
  colG : DecD
  colB : DecD
  card : Str
  channel : Str
  systemTheme : Bool
  volControl : Str
  scrollStep : DecD
  fineScrollStep : DecD
  middleClick : Int
  customCommand : Str
  normalizeVolume : Bool
  enableHotKeys : Bool
  hotkeyVolStep : Int
  muteLabel : Str
  upLabel : Str
  downLabel : Str
deriving DecidableEq

structure CommitResult where
  kf : Option KeyFile
  fs : Option FileData
  saveError : Bool
  alsaChange : Int
  effects : List AppEffect
deriving DecidableEq

/-- The first six `prefs_set_*` calls of `on_ok_button_clicked`
(callbacks.c:192-234), in source order. -/
def commitKf6 (kf0 : Option KeyFile) (ui : PrefsUI) : Option KeyFile :=
  prefs_set_vol_meter_colors
    (prefs_set_integer
      (prefs_set_boolean
        (prefs_set_integer
          (prefs_set_boolean
            (prefs_set_string kf0 (str "SliderOrientation") ui.sliderOrientation)
            (str "DisplayTextVolume") ui.displayTextVolume)
          (str "TextVolumePosition") ui.textVolumePosition)
        (str "DrawVolMeter") ui.drawVolMeter)
      (str "VolMeterPos") ui.volMeterPos)
    [ui.colR, ui.colG, ui.colB]

/-- The snapshot `old_card = prefs_get_string("AlsaCard", NULL)`
(callbacks.c:238), taken after the first six sets. -/
def commitOldCard (kf0 : Option KeyFile) (ui : PrefsUI) : Option Str :=
  prefs_get_string (commitKf6 kf0 ui) (str "AlsaCard") none

/-- The store after `prefs_set_string("AlsaCard", card)` (callbacks.c:242). -/
def commitKf7 (kf0 : Option KeyFile) (ui : PrefsUI) : Option KeyFile :=
  prefs_set_string (commitKf6 kf0 ui) (str "AlsaCard") ui.card

/-- The snapshot `old_channel = prefs_get_channel(old_card)`
(callbacks.c:246-250), read after the AlsaCard write, only when a card was
stored. -/
def commitOldChannel (kf0 : Option KeyFile) (ui : PrefsUI) : Option Str :=
  match commitOldCard kf0 ui with
  | some oc => prefs_get_channel (commitKf7 kf0 ui) (some oc)
  | none => none

/-- The `alsa_change` flag of `on_ok_button_clicked`: set when the stored
card is present and differs from the selection, or when the old card's
stored channel is present and differs from the selection. -/
def commitAlsaChange (kf0 : Option KeyFile) (ui : PrefsUI) : Int :=
  let a1 : Int :=
    match commitOldCard kf0 ui with
    | some oc => if oc ≠ ui.card then 1 else 0
    | none => 0
  match commitOldChannel kf0 ui with
  | some oc => if oc ≠ ui.channel then 1 else a1
  | none => a1

/-- The store after all writes of `on_ok_button_clicked`
(callbacks.c:257-336), in source order. -/
def commitKf23 (kf0 : Option KeyFile) (ui : PrefsUI) : Option KeyFile :=
  let kf8 := prefs_set_channel (commitKf7 kf0 ui) ui.card ui.channel
  let kf9 := prefs_set_boolean kf8 (str "SystemTheme") ui.systemTheme
  let kf10 := prefs_set_string kf9 (str "VolumeControlCommand") ui.volControl
  let kf11 := prefs_set_double kf10 (str "ScrollStep") ui.scrollStep
  let kf12 := prefs_set_double kf11 (str "FineScrollStep") ui.fineScrollStep
  let kf13 := prefs_set_integer kf12 (str "MiddleClickAction") ui.middleClick
  let kf14 := prefs_set_string kf13 (str "CustomCommand") ui.customCommand
  let kf15 := prefs_set_boolean kf14 (str "NormalizeVolume") ui.normalizeVolume
  let kf16 := prefs_set_boolean kf15 (str "EnableHotKeys") ui.enableHotKeys
  let kf17 := prefs_set_integer kf16 (str "HotkeyVolumeStep") ui.hotkeyVolStep
  let mutek := accelLabelToKeyCodeMods ui.muteLabel
  let kf18 := prefs_set_integer kf17 (str "VolMuteKey") mutek.1
  let kf19 := prefs_set_integer kf18 (str "VolMuteMods") mutek.2
  let upk := accelLabelToKeyCodeMods ui.upLabel
  let kf20 := prefs_set_integer kf19 (str "VolUpKey") upk.1
  let kf21 := prefs_set_integer kf20 (str "VolUpMods") upk.2
  let downk := accelLabelToKeyCodeMods ui.downLabel
  let kf22 := prefs_set_integer kf21 (str "VolDownKey") downk.1
  prefs_set_integer kf22 (str "VolDownMods") downk.2

/-- `on_ok_button_clicked` (callbacks.c:186), GTK3 build without libnotify:
the staged widget values are written into the store in source order, the
audio change flag is computed from snapshots read mid-sequence, then
`prefs_save` and `apply_prefs(alsa_change)` run. -/
def on_ok_button_clicked (kf0 : Option KeyFile) (dir : DirState)
    (fs : Option FileData) (writeOk : Bool) (ui : PrefsUI) : CommitResult :=
  let kf := commitKf23 kf0 ui
  let a := commitAlsaChange kf0 ui
  let sv := prefs_save kf dir fs writeOk
  ⟨kf, sv.1, sv.2, a, apply_prefs kf a⟩

/-! ### The hotkey capture machine -/

inductive HkEffect where
  | ungrab
  | respondOK
  | writeStaged (action : Nat) (text : Str)
  | hideDialog
deriving DecidableEq

def asciiLower (c : Char) : Char :=
  if 65 ≤ c.toNat ∧ c.toNat ≤ 90 then Char.ofNat (c.toNat + 32) else c

/-- The `strcasecmp(key_name, "<Primary>c")` abort check of `acquire_hotkey`
(prefs.c:722): the reserved Control+C combination becomes the "(None)"
no-binding sentinel. -/
def abortFilter (t : Str) : Str :=
  if t.map asciiLower = (str "<Primary>c").map asciiLower then str "(None)" else t

/-- `hotkey_released` (prefs.c:790), GTK3 branch: ungrab the device first,
then answer the dialog with GTK_RESPONSE_OK. -/
def hotkey_released_effects : List HkEffect := [.ungrab, .respondOK]

/-- The tail of `acquire_hotkey` (prefs.c:713) once `gtk_dialog_run`
returns: ungrab again, write the (abort-filtered) label into the staged
hotkey label when the response was OK, hide the dialog. -/
def acquire_after_dialog (action : Nat) (respOK : Bool) (label : Str) : List HkEffect :=
  [.ungrab] ++ (if respOK then [.writeStaged action (abortFilter label)] else []) ++
    [.hideDialog]

/-- The full Listening → Committed transition: the key-release handler fires,
the dialog run returns GTK_RESPONSE_OK, and `acquire_hotkey` finishes. -/
def commitTransition (action : Nat) (label : Str) : List HkEffect :=
  hotkey_released_effects ++ acquire_after_dialog action true label

/-- A key-press event after the external keymap translation
(`gdk_keymap_translate_keyboard_state`): resulting keysym, the raw modifier
state and the consumed modifiers. -/
structure KeyPress where
  keyval : Nat
  state : GdkMods
  consumed : GdkMods
deriving DecidableEq

/-- `hotkey_pressed` (prefs.c:757): canonical accelerator text of one press,
state stripped of consumed modifiers and masked to the default mod mask. -/
def rawToCanonical (p : KeyPress) : Str :=
  accelName p.keyval (cleanState p.state p.consumed)

/-- The hotkey dialog label after a sequence of presses (each press
overwrites the label). -/
def labelAfter (init : Str) (presses : List KeyPress) : Str :=
  presses.foldl (fun _ p => rawToCanonical p) init

def isUngrab : HkEffect → Bool
  | .ungrab => true
  | _ => false

def isWrite : HkEffect → Bool
  | .writeStaged _ _ => true
  | _ => false

/-- The text written to the staged hotkey label by a transition, if any. -/
def stagedText : List HkEffect → Option Str
  | [] => none
  | .writeStaged _ t :: _ => some t
  | _ :: rest => stagedText rest

def isGrabKeysE : AppEffect → Bool
  | .grabKeys _ _ _ _ _ _ _ => true
  | _ => false

/-! ### Helper predicates and concrete inputs for the claims -/

/-- Remove one key from one group (for comparing stores up to a key). -/
def eraseKey (kf : KeyFile) (g k : Str) : KeyFile :=
  ⟨kf.groups.map fun gr =>
    if gr.1 = g then (gr.1, gr.2.filter fun e => decide (e.1 ≠ k)) else gr⟩

/-- A commit changed only the VolMeterColor entry: the stores are equal
after erasing that entry, and the entry itself differs. -/
def changesOnlyColorB (kf kf2 : Option KeyFile) : Bool :=
  match kf, kf2 with
  | some a, some b =>
    eraseKey a pnmixerG (str "VolMeterColor") = eraseKey b pnmixerG (str "VolMeterColor")
      && getValue a pnmixerG (str "VolMeterColor") ≠ getValue b pnmixerG (str "VolMeterColor")
  | _, _ => false

/-! ### Concrete inputs used by individual claims -/

/-- A stored VolMeterColor list with five entries, two of them above 1. -/
def fiveColors : List DecD := [⟨25, 1⟩, ⟨5, 1⟩, ⟨5, 1⟩, ⟨5, 1⟩, ⟨25, 1⟩]

/-- Widget state for a commit that changes only the meter colour: every
staged value matches what `kfC4` already stores, except the colour
(0.1 staged vs 0.9 stored). -/
def uiC4 : PrefsUI :=
  ⟨str "vertical", true, 0, false, 0, ⟨1, 1⟩, ⟨1, 1⟩, ⟨1, 1⟩, str "default",
   str "Master", false, str "pavucontrol", ⟨5, 0⟩, ⟨1, 0⟩, 0, [], false, false, 1,
   str "(None)", str "(None)", str "(None)"⟩

/-- A store whose entries are exactly what committing `uiC4` writes, except
the VolMeterColor entry. -/
def kfC4 : KeyFile :=
  ⟨[(pnmixerG,
    [ (str "SliderOrientation", str "vertical"),
      (str "DisplayTextVolume", str "true"),
      (str "TextVolumePosition", str "0"),
      (str "DrawVolMeter", str "false"),
      (str "VolMeterPos", str "0"),
      (str "VolMeterColor", encDoubleList [⟨9, 1⟩, ⟨9, 1⟩, ⟨9, 1⟩]),
      (str "AlsaCard", str "default"),
      (str "SystemTheme", str "false"),
      (str "VolumeControlCommand", str "pavucontrol"),
      (str "ScrollStep", str "5"),
      (str "FineScrollStep", str "1"),
      (str "MiddleClickAction", str "0"),
      (str "CustomCommand", []),
      (str "NormalizeVolume", str "false"),
      (str "EnableHotKeys", str "false"),
      (str "HotkeyVolumeStep", str "1"),
      (str "VolMuteKey", str "-1"),
      (str "VolMuteMods", str "0"),
      (str "VolUpKey", str "-1"),
      (str "VolUpMods", str "0"),
      (str "VolDownKey", str "-1"),
      (str "VolDownMods", str "0") ]),
   (str "default", [(str "Channel", str "Master")])]⟩

/-- A store whose Channel value for card "CardX" contains the invalid escape
sequence `\q`. -/
def kfC8 : KeyFile :=
  ⟨[(str "CardX", [(str "Channel", str "ab\\q")])]⟩

/-! ## Lemmas: decimal digits -/

theorem digChar_facts : ∀ d, d < 10 → charVal (digChar d) = some d ∧
    isDigitCh (digChar d) = true ∧ isSpaceCh (digChar d) = false ∧
    digChar d ≠ '-' ∧ digChar d ≠ '+' ∧ digChar d ≠ '.' ∧ digChar d ≠ ';' ∧
    digChar d ≠ '\\' := by decide

theorem parseDigitsAcc_append (acc : Nat) (xs ys : Str) :
    parseDigitsAcc acc (xs ++ ys) =
      (parseDigitsAcc acc xs).bind fun a => parseDigitsAcc a ys := by
  induction xs generalizing acc with
  | nil => simp [parseDigitsAcc]
  | cons c t ih =>
    cases h : charVal c with
    | some d => simp [parseDigitsAcc, h, ih]
    | none => simp [parseDigitsAcc, h]

theorem lsbDigits_eq_digits : ∀ (fuel n : Nat), n ≤ fuel →
    lsbDigits fuel n = Nat.digits 10 n := by
  intro fuel
  induction fuel with
  | zero =>
    intro n h
    have hn : n = 0 := Nat.le_zero.mp h
    subst hn
    simp [lsbDigits]
  | succ f ih =>
    intro n h
    by_cases hn : n = 0
    · subst hn; simp [lsbDigits]
    · have hdiv : n / 10 ≤ f := by
        have := Nat.div_lt_self (Nat.pos_of_ne_zero hn) (by norm_num : 1 < 10)
        omega
      simp only [lsbDigits, if_neg hn]
      rw [ih (n / 10) hdiv,
        Nat.digits_def' (by norm_num : (1 : ℕ) < 10) (Nat.pos_of_ne_zero hn)]

theorem parseAcc_revmap : ∀ (L : List Nat), (∀ d ∈ L, d < 10) → ∀ acc : Nat,
    parseDigitsAcc acc (L.reverse.map digChar) =
      some (acc * 10 ^ L.length + Nat.ofDigits 10 L) := by
  intro L
  induction L with
  | nil => intro _ acc; simp [parseDigitsAcc, Nat.ofDigits_nil]
  | cons d T ih =>
    intro hL acc
    have hd : d < 10 := hL d (by simp)
    have hT : ∀ x ∈ T, x < 10 := fun x hx => hL x (by simp [hx])
    simp only [List.reverse_cons, List.map_append, List.map_cons, List.map_nil]
    rw [parseDigitsAcc_append, ih hT acc]
    have hcv : charVal (digChar d) = some d := (digChar_facts d hd).1
    simp only [Option.some_bind, parseDigitsAcc, hcv]
    rw [Nat.ofDigits_cons]
    congr 1
    rw [List.length_cons, pow_succ]
    ring

theorem natEnc_eq_digits (n : Nat) (hn : n ≠ 0) :
    natEnc n = (Nat.digits 10 n).reverse.map digChar := by
  rw [natEnc, if_neg hn, lsbDigits_eq_digits (n + 1) n (by omega)]

theorem natEnc_chars (n : Nat) : ∀ c ∈ natEnc n, ∃ d, d < 10 ∧ c = digChar d := by
  by_cases hn : n = 0
  · subst hn; intro c hc; simp [natEnc] at hc; exact ⟨0, by omega, by simp [hc, digChar]⟩
  · rw [natEnc_eq_digits n hn]
    intro c hc
    rcases List.mem_map.mp hc with ⟨d, hd, rfl⟩
    exact ⟨d, Nat.digits_lt_base (by norm_num)
      (List.mem_reverse.mp hd), rfl⟩

theorem natEnc_ne_nil (n : Nat) : natEnc n ≠ [] := by
  by_cases hn : n = 0
  · subst hn; simp [natEnc]
  · rw [natEnc_eq_digits n hn]
    simp [Nat.digits_ne_nil_iff_ne_zero.mpr hn]

theorem parseDigitsAcc_natEnc (n : Nat) : parseDigitsAcc 0 (natEnc n) = some n := by
  by_cases hn : n = 0
  · subst hn; decide
  · rw [natEnc_eq_digits n hn,
      parseAcc_revmap (Nat.digits 10 n)
        (fun d hd => Nat.digits_lt_base (by norm_num) hd) 0]
    simp [Nat.ofDigits_digits]

theorem natEnc_all_digits (n : Nat) : (natEnc n).all isDigitCh = true := by
  rw [List.all_eq_true]
  intro c hc
  rcases natEnc_chars n c hc with ⟨d, hd, rfl⟩
  exact (digChar_facts d hd).2.1

theorem parseNatAll_natEnc (n : Nat) : parseNatAll (natEnc n) = some n := by
  rcases h : natEnc n with _ | ⟨c, t⟩
  · exact absurd h (natEnc_ne_nil n)
  · simp only [parseNatAll]
    rw [← h, if_pos (natEnc_all_digits n), parseDigitsAcc_natEnc]

/-! ## Lemmas: integer encode/parse round trip -/

theorem dropWhile_not_head {p : Char → Bool} (c : Char) (t : Str) (h : p c = false) :
    List.dropWhile p (c :: t) = c :: t := by
  simp [List.dropWhile_cons, h]

theorem dropWhile_natEnc (n : Nat) :
    List.dropWhile isSpaceCh (natEnc n) = natEnc n := by
  rcases h : natEnc n with _ | ⟨c, t⟩
  · rfl
  · have hc : ∃ d, d < 10 ∧ c = digChar d := natEnc_chars n c (by rw [h]; simp)
    rcases hc with ⟨d, hd, rfl⟩
    exact dropWhile_not_head _ _ (digChar_facts d hd).2.2.1

theorem parseGint_gintEnc (v : Int) (h1 : -2147483648 ≤ v) (h2 : v ≤ 2147483647) :
    parseGint (gintEnc v) = some v := by
  by_cases hv : v < 0
  · have habs : ((v.natAbs : Int)) = -v := Int.ofNat_natAbs_of_nonpos (by omega)
    rw [gintEnc, if_pos hv, parseGint]
    rw [dropWhile_not_head '-' _ (by decide)]
    simp only [parseGintAfterWs, if_pos rfl]
    rw [parseNatAll_natEnc]
    simp only [Option.some_bind, gintRange, habs, neg_neg]
    have hcond : -2147483648 ≤ v ∧ v ≤ 2147483647 := ⟨h1, h2⟩
    exact if_pos hcond
  · have habs : ((v.natAbs : Int)) = v := Int.natAbs_of_nonneg (by omega)
    rw [gintEnc, if_neg hv, parseGint]
    rw [dropWhile_natEnc]
    rcases h : natEnc v.natAbs with _ | ⟨c, t⟩
    · exact absurd h (natEnc_ne_nil _)
    · rcases natEnc_chars v.natAbs c (by rw [h]; simp) with ⟨d, hd, rfl⟩
      simp only [parseGintAfterWs]
      rw [if_neg (digChar_facts d hd).2.2.2.1, if_neg (digChar_facts d hd).2.2.2.2.1]
      rw [← h, parseNatAll_natEnc]
      simp only [Option.some_bind, gintRange, habs]
      have hcond : -2147483648 ≤ v ∧ v ≤ 2147483647 := ⟨h1, h2⟩
      exact if_pos hcond

/-! ## Lemmas: double encode/parse round trip -/

theorem spanDigits_append : ∀ (xs : Str), (∀ c ∈ xs, isDigitCh c = true) →
    ∀ ys : Str, (ys = [] ∨ ∃ c t, ys = c :: t ∧ isDigitCh c = false) →
    spanDigits (xs ++ ys) = (xs, ys) := by
  intro xs
  induction xs with
  | nil =>
    intro _ ys hy
    rcases hy with rfl | ⟨c, t, rfl, hc⟩
    · rfl
    · simp [spanDigits, hc]
  | cons c t ih =>
    intro hx ys hy
    have hc : isDigitCh c = true := hx c (by simp)
    have ht : ∀ x ∈ t, isDigitCh x = true := fun x hxm => hx x (by simp [hxm])
    simp [spanDigits, hc, ih ht ys hy]

theorem spanDigits_all (xs : Str) (hx : ∀ c ∈ xs, isDigitCh c = true) :
    spanDigits xs = (xs, []) := by
  have h := spanDigits_append xs hx [] (Or.inl rfl)
  simpa using h

theorem natEnc_all_digits_mem (n : Nat) : ∀ c ∈ natEnc n, isDigitCh c = true := by
  intro c hc
  rcases natEnc_chars n c hc with ⟨d, hd, rfl⟩
  exact (digChar_facts d hd).2.1

theorem fracEnc_length : ∀ (e n : Nat), (fracEnc n e).length = e := by
  intro e
  induction e with
  | zero => intro n; rfl
  | succ e ih => intro n; simp [fracEnc, ih]

theorem fracEnc_chars : ∀ (e n : Nat), n < 10 ^ e →
    ∀ c ∈ fracEnc n e, ∃ d, d < 10 ∧ c = digChar d := by
  intro e
  induction e with
  | zero => intro n _ c hc; simp [fracEnc] at hc
  | succ e ih =>
    intro n hn c hc
    simp only [fracEnc, List.mem_cons] at hc
    rcases hc with rfl | hc
    · refine ⟨n / 10 ^ e, ?_, rfl⟩
      rw [Nat.div_lt_iff_lt_mul (by positivity)]
      calc n < 10 ^ (e + 1) := hn
        _ = 10 * 10 ^ e := by rw [pow_succ]; ring
    · exact ih (n % 10 ^ e) (Nat.mod_lt _ (by positivity)) c hc

theorem fracEnc_all_digits (e n : Nat) (hn : n < 10 ^ e) :
    ∀ c ∈ fracEnc n e, isDigitCh c = true := by
  intro c hc
  rcases fracEnc_chars e n hn c hc with ⟨d, hd, rfl⟩
  exact (digChar_facts d hd).2.1

theorem fracEnc_parse : ∀ (e n acc : Nat), n < 10 ^ e →
    parseDigitsAcc acc (fracEnc n e) = some (acc * 10 ^ e + n) := by
  intro e
  induction e with
  | zero =>
    intro n acc hn
    have hn0 : n = 0 := by simpa using hn
    subst hn0
    simp [fracEnc, parseDigitsAcc]
  | succ e ih =>
    intro n acc hn
    have hq : n / 10 ^ e < 10 := by
      rw [Nat.div_lt_iff_lt_mul (by positivity)]
      calc n < 10 ^ (e + 1) := hn
        _ = 10 * 10 ^ e := by rw [pow_succ]; ring
    simp only [fracEnc, parseDigitsAcc, (digChar_facts _ hq).1]
    rw [ih (n % 10 ^ e) (acc * 10 + n / 10 ^ e) (Nat.mod_lt _ (by positivity))]
    congr 1
    set q := n / 10 ^ e with hqdef
    set r := n % 10 ^ e with hrdef
    have hdm : 10 ^ e * q + r = n := Nat.div_add_mod n (10 ^ e)
    rw [pow_succ, ← hdm]
    ring

/-- Parsing the digits+fraction body produced by `encDouble`. -/
theorem parseGdoubleBody_enc (neg : Bool) (q r e : Nat) (hr : r < 10 ^ e) :
    parseGdoubleBody neg
        (natEnc q ++ (if e = 0 then [] else '.' :: fracEnc r e)) =
      some (mkDecD neg q r e) := by
  by_cases he : e = 0
  · subst he
    have hr0 : r = 0 := by simpa using hr
    subst hr0
    show parseGdoubleBody neg (natEnc q ++ []) = some (mkDecD neg q 0 0)
    rw [List.append_nil, parseGdoubleBody,
      spanDigits_all (natEnc q) (natEnc_all_digits_mem q)]
    dsimp only
    rw [if_pos (show ([] : Str) = [] from rfl), parseNatAll_natEnc]
    rfl
  · simp only [if_neg he]
    rw [parseGdoubleBody]
    rw [spanDigits_append (natEnc q) (natEnc_all_digits_mem q)
      ('.' :: fracEnc r e) (Or.inr ⟨'.', fracEnc r e, rfl, by decide⟩)]
    dsimp only [List.head?_cons, List.tail_cons]
    rw [if_neg (show ¬('.' :: fracEnc r e = []) by simp),
      if_pos (show some '.' = some '.' from rfl),
      spanDigits_all (fracEnc r e) (fracEnc_all_digits e r hr)]
    dsimp only
    rw [if_pos (show ([] : Str) = [] from rfl),
      if_neg (fun hand => natEnc_ne_nil q hand.1),
      parseDigitsAcc_natEnc, fracEnc_parse e r 0 hr, fracEnc_length]
    simp [mkDecD]

theorem mkDecD_true (ip fp flen : Nat) :
    mkDecD true ip fp flen = ⟨-((ip : Int) * 10 ^ flen + fp), flen⟩ := by
  simp [mkDecD]

theorem mkDecD_false (ip fp flen : Nat) :
    mkDecD false ip fp flen = ⟨(ip : Int) * 10 ^ flen + fp, flen⟩ := by
  simp [mkDecD]

theorem parseGdouble_encDouble (d : DecD) : parseGdouble (encDouble d) = some d := by
  have hr : d.m.natAbs % 10 ^ d.e < 10 ^ d.e := Nat.mod_lt _ (by positivity)
  have hval : ((d.m.natAbs / 10 ^ d.e : Nat) : Int) * 10 ^ d.e +
      ((d.m.natAbs % 10 ^ d.e : Nat) : Int) = (d.m.natAbs : Int) := by
    have h : ((10 : Int) ^ d.e) * ((d.m.natAbs / 10 ^ d.e : Nat) : Int) +
        ((d.m.natAbs % 10 ^ d.e : Nat) : Int) = (d.m.natAbs : Int) := by
      exact_mod_cast Nat.div_add_mod d.m.natAbs (10 ^ d.e)
    linear_combination h
  by_cases hm : d.m < 0
  · have henc : encDouble d = '-' :: (natEnc (d.m.natAbs / 10 ^ d.e) ++
        (if d.e = 0 then [] else '.' :: fracEnc (d.m.natAbs % 10 ^ d.e) d.e)) := by
      rw [encDouble, if_pos hm]; rfl
    rw [parseGdouble, henc, dropWhile_not_head '-' _ (by decide),
      show ∀ x : Str, parseGdoubleAfterWs ('-' :: x) = parseGdoubleBody true x
        from fun x => rfl,
      parseGdoubleBody_enc true _ _ _ hr, mkDecD_true, hval,
      Int.ofNat_natAbs_of_nonpos (by omega : d.m ≤ 0), neg_neg]
  · have henc : encDouble d = natEnc (d.m.natAbs / 10 ^ d.e) ++
        (if d.e = 0 then [] else '.' :: fracEnc (d.m.natAbs % 10 ^ d.e) d.e) := by
      rw [encDouble, if_neg hm]; rfl
    rw [parseGdouble, henc]
    rcases h : natEnc (d.m.natAbs / 10 ^ d.e) with _ | ⟨c, t⟩
    · exact absurd h (natEnc_ne_nil _)
    · rcases natEnc_chars _ c (by rw [h]; simp) with ⟨d2, hd2, rfl⟩
      rw [List.cons_append, dropWhile_not_head _ _ (digChar_facts d2 hd2).2.2.1]
      simp only [parseGdoubleAfterWs]
      rw [if_neg (digChar_facts d2 hd2).2.2.2.1, if_neg (digChar_facts d2 hd2).2.2.2.2.1]
      rw [← List.cons_append, ← h, parseGdoubleBody_enc false _ _ _ hr,
        mkDecD_false, hval, Int.natAbs_of_nonneg (by omega : 0 ≤ d.m)]

/-! ## Lemmas: boolean and string round trips -/

theorem parseGbool_gboolEnc (b : Bool) : parseGbool (gboolEnc b) = some b := by
  cases b <;> decide

theorem unescapeLenient_cons_ne (c : Char) (t : Str) (h : ¬c = '\\') :
    unescapeLenient (c :: t) =
      (c :: (unescapeLenient t).1, (unescapeLenient t).2) := by
  cases t with
  | nil => simp [unescapeLenient, h]
  | cons e t2 => simp only [unescapeLenient, if_neg h]

theorem unescapeLenient_bs (e : Char) (t2 : Str) :
    unescapeLenient ('\\' :: e :: t2) =
      match unescChar e with
      | none => ('\\' :: e :: (unescapeLenient t2).1, true)
      | some u => (u :: (unescapeLenient t2).1, (unescapeLenient t2).2) := rfl

theorem unescapeLenient_escChar (c : Char) (t : Str) :
    unescapeLenient (escChar c ++ t) =
      (c :: (unescapeLenient t).1, (unescapeLenient t).2) := by
  by_cases h1 : c = '\\'
  · subst h1
    rw [show escChar '\\' = ['\\', '\\'] from rfl, List.cons_append, List.cons_append,
      List.nil_append, unescapeLenient_bs, show unescChar '\\' = some '\\' from rfl]
  · by_cases h2 : c = '\n'
    · subst h2
      rw [show escChar '\n' = ['\\', 'n'] from rfl, List.cons_append, List.cons_append,
        List.nil_append, unescapeLenient_bs, show unescChar 'n' = some '\n' from rfl]
    · by_cases h3 : c = '\t'
      · subst h3
        rw [show escChar '\t' = ['\\', 't'] from rfl, List.cons_append, List.cons_append,
          List.nil_append, unescapeLenient_bs, show unescChar 't' = some '\t' from rfl]
      · by_cases h4 : c = '\r'
        · subst h4
          rw [show escChar '\r' = ['\\', 'r'] from rfl, List.cons_append, List.cons_append,
            List.nil_append, unescapeLenient_bs, show unescChar 'r' = some '\r' from rfl]
        · rw [show escChar c = [c] from by simp [escChar, h1, h2, h3, h4],
            List.cons_append, List.nil_append, unescapeLenient_cons_ne c _ h1]

theorem unescapeLenient_flat (s : Str) :
    unescapeLenient ((s.map escChar).flatten) = (s, false) := by
  induction s with
  | nil => rfl
  | cons c t ih =>
    simp only [List.map_cons, List.flatten_cons]
    rw [unescapeLenient_escChar, ih]

theorem unescapeLenient_escString (s : Str) :
    unescapeLenient (escString s) = (s, false) := by
  cases s with
  | nil => rfl
  | cons c t =>
    by_cases hc : c = ' '
    · subst hc
      rw [show escString (' ' :: t) = '\\' :: 's' :: (t.map escChar).flatten from rfl]
      rw [unescapeLenient_bs, show unescChar 's' = some ' ' from rfl,
        unescapeLenient_flat]
    · simp only [escString, if_neg hc]
      rw [unescapeLenient_escChar, unescapeLenient_flat]

/-! ## Lemmas: the key file store -/

theorem assocGet_set_same (l : List (Str × Str)) (k v : Str) :
    assocGet (assocSet l k v) k = some v := by
  induction l with
  | nil => simp [assocSet, assocGet]
  | cons p t ih =>
    obtain ⟨k0, w⟩ := p
    by_cases h : k0 = k
    · simp [assocSet, assocGet, h]
    · simp [assocSet, assocGet, h, ih]

theorem assocGet_set_ne (l : List (Str × Str)) (k v k2 : Str) (h : k2 ≠ k) :
    assocGet (assocSet l k v) k2 = assocGet l k2 := by
  have hsym : ¬k = k2 := fun he => h (Eq.symm he)
  induction l with
  | nil => simp [assocSet, assocGet, hsym]
  | cons p t ih =>
    obtain ⟨k0, w⟩ := p
    by_cases h0 : k0 = k
    · subst h0
      have h2 : ¬k0 = k2 := fun he => h (he.symm)
      simp [assocSet, assocGet, h2]
    · simp [assocSet, assocGet, h0, ih]

theorem groupsGet_set_same (gs : List (Str × List (Str × Str))) (name k v : Str) :
    groupsGet (groupsSet gs name k v) name =
      some (match groupsGet gs name with
            | some es => assocSet es k v
            | none => [(k, v)]) := by
  induction gs with
  | nil => simp [groupsSet, groupsGet]
  | cons p t ih =>
    obtain ⟨g0, es⟩ := p
    by_cases h : g0 = name
    · simp [groupsSet, groupsGet, h]
    · simp [groupsSet, groupsGet, h, ih]

theorem groupsGet_set_ne (gs : List (Str × List (Str × Str))) (name k v n2 : Str)
    (h : n2 ≠ name) :
    groupsGet (groupsSet gs name k v) n2 = groupsGet gs n2 := by
  have hsym : ¬name = n2 := fun he => h (Eq.symm he)
  induction gs with
  | nil => simp [groupsSet, groupsGet, hsym]
  | cons p t ih =>
    obtain ⟨g0, es⟩ := p
    by_cases h0 : g0 = name
    · subst h0
      have h2 : ¬g0 = n2 := fun he => h he.symm
      simp [groupsSet, groupsGet, h2]
    · simp [groupsSet, groupsGet, h0, ih]

theorem getValue_setValue_same (kf : KeyFile) (g k v : Str) :
    getValue (setValue kf g k v) g k = some v := by
  rw [getValue, setValue]
  show (groupsGet (groupsSet kf.groups g k v) g).bind (fun es => assocGet es k) = some v
  rw [groupsGet_set_same]
  cases h : groupsGet kf.groups g with
  | none => simp [h, assocGet]
  | some es => simp [h, assocGet_set_same]

theorem getValue_setValue_ne (kf : KeyFile) (g k v g2 k2 : Str)
    (h : g2 ≠ g ∨ k2 ≠ k) :
    getValue (setValue kf g k v) g2 k2 = getValue kf g2 k2 := by
  by_cases hg : g2 = g
  · subst hg
    have hk : k2 ≠ k := h.resolve_left (fun he => he rfl)
    rw [getValue, getValue, setValue]
    show (groupsGet (groupsSet kf.groups g2 k v) g2).bind (fun es => assocGet es k2) = _
    rw [groupsGet_set_same]
    have hksym : ¬k = k2 := fun he => hk (Eq.symm he)
    cases h2 : groupsGet kf.groups g2 with
    | none => simp [h2, assocGet, hksym]
    | some es => simp [h2, assocGet_set_ne es k v k2 hk]
  · rw [getValue, getValue, setValue]
    show (groupsGet (groupsSet kf.groups g k v) g2).bind (fun es => assocGet es k2) = _
    rw [groupsGet_set_ne kf.groups g k v g2 hg]

theorem kfGetRaw_kfSet_same (f : KeyFile) (g k v : Str) :
    kfGetRaw (kfSet (some f) g k v) g k = some v := by
  simp [kfGetRaw, kfSet, getValue_setValue_same]

theorem kfGetRaw_kfSet_ne (kf : Option KeyFile) (g k v g2 k2 : Str)
    (h : g2 ≠ g ∨ k2 ≠ k) :
    kfGetRaw (kfSet kf g k v) g2 k2 = kfGetRaw kf g2 k2 := by
  cases kf with
  | none => rfl
  | some f => simp [kfGetRaw, kfSet, getValue_setValue_ne f g k v g2 k2 h]

/-! ## Lemmas: getter bridges and preservation across sets -/

theorem prefs_get_string_none_eq (kf : Option KeyFile) (key : Str) :
    prefs_get_string kf key none =
      (kfGetRaw kf pnmixerG key).bind
        (fun raw => if (unescapeLenient raw).2 = true then none
                    else some (unescapeLenient raw).1) := by
  cases kf with
  | none => rfl
  | some f =>
    rw [prefs_get_string, kfGetRaw]
    cases h1 : getValue f pnmixerG key with
    | none => simp [gkfGetString, h1]
    | some raw => simp [gkfGetString, h1]

theorem prefs_get_channel_eq (kf : Option KeyFile) (c : Str) :
    prefs_get_channel kf (some c) =
      (kfGetRaw kf c (str "Channel")).map (fun raw => (unescapeLenient raw).1) := by
  cases kf with
  | none => rfl
  | some f =>
    rw [prefs_get_channel, kfGetRaw]
    cases h1 : getValue f c (str "Channel") with
    | none => simp [gkfGetString, h1]
    | some raw => simp [gkfGetString, h1]

theorem gkfGetString_kfSet_ne (kf : Option KeyFile) (g k v g2 k2 : Str)
    (h : g2 ≠ g ∨ k2 ≠ k) :
    gkfGetString (kfSet kf g k v) g2 k2 = gkfGetString kf g2 k2 := by
  cases kf with
  | none => rfl
  | some f =>
    show gkfGetString (some (setValue f g k v)) g2 k2 = _
    rw [gkfGetString, gkfGetString, getValue_setValue_ne f g k v g2 k2 h]

theorem prefs_get_string_kfSet_ne {kf : Option KeyFile} {g k : Str} (v : Str)
    {key : Str} (dflt : Option Str) (h : pnmixerG ≠ g ∨ key ≠ k) :
    prefs_get_string (kfSet kf g k v) key dflt = prefs_get_string kf key dflt := by
  rw [prefs_get_string, prefs_get_string, gkfGetString_kfSet_ne kf g k v pnmixerG key h]

theorem prefs_get_channel_kfSet_ne {kf : Option KeyFile} {g k : Str} (v : Str)
    {c : Str} (h : c ≠ g ∨ str "Channel" ≠ k) :
    prefs_get_channel (kfSet kf g k v) (some c) = prefs_get_channel kf (some c) := by
  rw [prefs_get_channel, prefs_get_channel, gkfGetString_kfSet_ne kf g k v c (str "Channel") h]

/-! ## Lemmas: apply_prefs effects -/

theorem grabEffect_is_grab (kf : Option KeyFile) : isGrabKeysE (grabEffect kf) = true := by
  rw [grabEffect]
  split <;> rfl

theorem alsaReinit_ne_grabEffect (kf : Option KeyFile) :
    AppEffect.alsaReinit ≠ grabEffect kf := by
  rw [grabEffect]
  split <;> simp

theorem alsaReinit_not_mem_apply_prefs_zero (kf : Option KeyFile) :
    AppEffect.alsaReinit ∉ apply_prefs kf 0 := by
  simp [apply_prefs, alsaReinit_ne_grabEffect kf]

theorem alsaReinit_mem_apply_prefs_one (kf : Option KeyFile) :
    AppEffect.alsaReinit ∈ apply_prefs kf 1 := by
  simp [apply_prefs]

theorem isGrabKeysE_page (v : Int) : isGrabKeysE (.setPageIncrement v) = false := rfl

theorem isGrabKeysE_step (v : Int) : isGrabKeysE (.setStepIncrement v) = false := rfl

theorem isGrabKeysE_noti : isGrabKeysE .setNotifyOptions = false := rfl

theorem isGrabKeysE_color (r g b : DecD) : isGrabKeysE (.setVolMeterColor r g b) = false := rfl

theorem isGrabKeysE_icons : isGrabKeysE .updateStatusIcons = false := rfl

theorem isGrabKeysE_voltext : isGrabKeysE .updateVolText = false := rfl

theorem isGrabKeysE_reinit : isGrabKeysE .alsaReinit = false := rfl

theorem apply_prefs_grab_count (kf : Option KeyFile) (a : Int) :
    (apply_prefs kf a).countP isGrabKeysE = 1 := by
  by_cases h : a = 0 <;>
    simp [apply_prefs, h, List.countP_cons, List.countP_append,
      grabEffect_is_grab kf, isGrabKeysE_page, isGrabKeysE_step, isGrabKeysE_noti,
      isGrabKeysE_color, isGrabKeysE_icons, isGrabKeysE_voltext, isGrabKeysE_reinit]

theorem apply_prefs_view_mem (kf : Option KeyFile) (a : Int) :
    AppEffect.updateStatusIcons ∈ apply_prefs kf a := by
  simp [apply_prefs]

theorem apply_prefs_color_mem (kf : Option KeyFile) (a : Int) :
    AppEffect.setVolMeterColor ((prefs_get_vol_meter_colors kf).getD 0 ⟨0, 0⟩)
      ((prefs_get_vol_meter_colors kf).getD 1 ⟨0, 0⟩)
      ((prefs_get_vol_meter_colors kf).getD 2 ⟨0, 0⟩) ∈ apply_prefs kf a := by
  simp [apply_prefs]

theorem grabEffect_disabled (kf : Option KeyFile)
    (h : prefs_get_boolean kf (str "EnableHotKeys") false = false) :
    grabEffect kf = .grabKeys (-1) (-1) (-1) 0 0 0 1 := by
  rw [grabEffect, if_neg]
  simp [h]

theorem grabEffect_mem_apply_prefs (kf : Option KeyFile) (a : Int) :
    grabEffect kf ∈ apply_prefs kf a := by
  simp [apply_prefs]

/-! ## Lemmas: the commit path -/

theorem commitOldCard_eq (kf0 : Option KeyFile) (ui : PrefsUI) :
    commitOldCard kf0 ui = prefs_get_string kf0 (str "AlsaCard") none := by
  rw [commitOldCard, commitKf6]
  simp only [prefs_set_vol_meter_colors, prefs_set_integer, prefs_set_boolean,
    prefs_set_string]
  rw [prefs_get_string_kfSet_ne _ _ (Or.inr (show str "AlsaCard" ≠ str "VolMeterColor" by decide)),
    prefs_get_string_kfSet_ne _ _ (Or.inr (show str "AlsaCard" ≠ str "VolMeterPos" by decide)),
    prefs_get_string_kfSet_ne _ _ (Or.inr (show str "AlsaCard" ≠ str "DrawVolMeter" by decide)),
    prefs_get_string_kfSet_ne _ _ (Or.inr (show str "AlsaCard" ≠ str "TextVolumePosition" by decide)),
    prefs_get_string_kfSet_ne _ _ (Or.inr (show str "AlsaCard" ≠ str "DisplayTextVolume" by decide)),
    prefs_get_string_kfSet_ne _ _ (Or.inr (show str "AlsaCard" ≠ str "SliderOrientation" by decide))]

theorem commitAlsaChange_of_no_card (kf0 : Option KeyFile) (ui : PrefsUI)
    (h : commitOldCard kf0 ui = none) : commitAlsaChange kf0 ui = 0 := by
  simp [commitAlsaChange, commitOldChannel, h]

theorem commitAlsaChange_of_card_ne (kf0 : Option KeyFile) (ui : PrefsUI) (oc : Str)
    (h : commitOldCard kf0 ui = some oc) (hne : oc ≠ ui.card) :
    commitAlsaChange kf0 ui = 1 := by
  rw [commitAlsaChange, commitOldChannel, h]
  simp only [if_pos hne]
  cases h2 : prefs_get_channel (commitKf7 kf0 ui) (some oc) with
  | none => rfl
  | some ochan =>
    by_cases h3 : ochan = ui.channel
    · simp [h3]
    · simp [h3]

theorem commitAlsaChange_of_channel_ne (kf0 : Option KeyFile) (ui : PrefsUI) (ch : Str)
    (h : commitOldChannel kf0 ui = some ch) (hne : ch ≠ ui.channel) :
    commitAlsaChange kf0 ui = 1 := by
  rw [commitAlsaChange, h]
  simp [hne]

/-! ## Lemmas: eraseKey and store equality up to one key -/

theorem kfGetRaw_some (x : KeyFile) (g k : Str) :
    kfGetRaw (some x) g k = getValue x g k := rfl

theorem assocGet_filter_ne (l : List (Str × Str)) (K k : Str) (h : k ≠ K) :
    assocGet (l.filter fun e => decide (e.1 ≠ K)) k = assocGet l k := by
  induction l with
  | nil => rfl
  | cons p t ih =>
    obtain ⟨k0, w⟩ := p
    rw [List.filter_cons]
    by_cases h0 : k0 = K
    · have hk : ¬k0 = k := fun he => h (he ▸ h0)
      rw [if_neg (by simp [h0]), ih]
      conv_rhs => rw [assocGet]
      rw [if_neg hk]
    · rw [if_pos (by simpa using h0)]
      by_cases hk : k0 = k
      · simp only [assocGet]
        rw [if_pos hk, if_pos hk]
      · simp only [assocGet]
        rw [if_neg hk, if_neg hk]
        exact ih

theorem getValue_eraseKey (kf : KeyFile) (G K g k : Str) (h : g ≠ G ∨ k ≠ K) :
    getValue (eraseKey kf G K) g k = getValue kf g k := by
  obtain ⟨gs⟩ := kf
  show (groupsGet (gs.map fun gr =>
      if gr.1 = G then (gr.1, gr.2.filter fun e => decide (e.1 ≠ K)) else gr) g).bind
        (fun es => assocGet es k) =
    (groupsGet gs g).bind (fun es => assocGet es k)
  induction gs with
  | nil => rfl
  | cons p t ih =>
    obtain ⟨g0, es⟩ := p
    rw [List.map_cons]
    by_cases h0 : g0 = G
    · rw [show (if (g0, es).1 = G then
          ((g0, es).1, (g0, es).2.filter fun e => decide (e.1 ≠ K)) else (g0, es)) =
          ((g0 : Str), es.filter fun e => decide (e.1 ≠ K)) from by rw [if_pos h0]]
      by_cases hg : g0 = g
      · subst hg
        have hk : k ≠ K := h.resolve_left (fun hne => hne h0)
        simp only [groupsGet, if_pos trivial]
        simp only [Option.some_bind]
        exact assocGet_filter_ne es K k hk
      · simp only [groupsGet]
        rw [if_neg hg, if_neg hg]
        exact ih
    · rw [show (if (g0, es).1 = G then
          ((g0, es).1, (g0, es).2.filter fun e => decide (e.1 ≠ K)) else (g0, es)) =
          ((g0 : Str), es) from by rw [if_neg h0]]
      by_cases hg : g0 = g
      · simp only [groupsGet]
        rw [if_pos hg, if_pos hg]
      · simp only [groupsGet]
        rw [if_neg hg, if_neg hg]
        exact ih

theorem changesOnlyColorB_getValue (a b : KeyFile)
    (hab : eraseKey a pnmixerG (str "VolMeterColor") =
      eraseKey b pnmixerG (str "VolMeterColor"))
    (g k : Str) (h : g ≠ pnmixerG ∨ k ≠ str "VolMeterColor") :
    getValue a g k = getValue b g k := by
  rw [← getValue_eraseKey a pnmixerG (str "VolMeterColor") g k h, hab,
    getValue_eraseKey b pnmixerG (str "VolMeterColor") g k h]

/-! ## Lemmas: values the commit leaves in the store -/

theorem commitKf23_alsacard (f : KeyFile) (ui : PrefsUI) :
    kfGetRaw (commitKf23 (some f) ui) pnmixerG (str "AlsaCard") =
      some (escString ui.card) := by
  obtain ⟨f6, hf6⟩ : ∃ f6, commitKf6 (some f) ui = some f6 := ⟨_, rfl⟩
  rw [commitKf23]
  simp only [prefs_set_integer, prefs_set_boolean, prefs_set_string, prefs_set_double,
    prefs_set_channel]
  rw [kfGetRaw_kfSet_ne _ _ _ _ _ _ (Or.inr (show str "AlsaCard" ≠ str "VolDownMods" by decide)),
    kfGetRaw_kfSet_ne _ _ _ _ _ _ (Or.inr (show str "AlsaCard" ≠ str "VolDownKey" by decide)),
    kfGetRaw_kfSet_ne _ _ _ _ _ _ (Or.inr (show str "AlsaCard" ≠ str "VolUpMods" by decide)),
    kfGetRaw_kfSet_ne _ _ _ _ _ _ (Or.inr (show str "AlsaCard" ≠ str "VolUpKey" by decide)),
    kfGetRaw_kfSet_ne _ _ _ _ _ _ (Or.inr (show str "AlsaCard" ≠ str "VolMuteMods" by decide)),
    kfGetRaw_kfSet_ne _ _ _ _ _ _ (Or.inr (show str "AlsaCard" ≠ str "VolMuteKey" by decide)),
    kfGetRaw_kfSet_ne _ _ _ _ _ _ (Or.inr (show str "AlsaCard" ≠ str "HotkeyVolumeStep" by decide)),
    kfGetRaw_kfSet_ne _ _ _ _ _ _ (Or.inr (show str "AlsaCard" ≠ str "EnableHotKeys" by decide)),
    kfGetRaw_kfSet_ne _ _ _ _ _ _ (Or.inr (show str "AlsaCard" ≠ str "NormalizeVolume" by decide)),
    kfGetRaw_kfSet_ne _ _ _ _ _ _ (Or.inr (show str "AlsaCard" ≠ str "CustomCommand" by decide)),
    kfGetRaw_kfSet_ne _ _ _ _ _ _ (Or.inr (show str "AlsaCard" ≠ str "MiddleClickAction" by decide)),
    kfGetRaw_kfSet_ne _ _ _ _ _ _ (Or.inr (show str "AlsaCard" ≠ str "FineScrollStep" by decide)),
    kfGetRaw_kfSet_ne _ _ _ _ _ _ (Or.inr (show str "AlsaCard" ≠ str "ScrollStep" by decide)),
    kfGetRaw_kfSet_ne _ _ _ _ _ _ (Or.inr (show str "AlsaCard" ≠ str "VolumeControlCommand" by decide)),
    kfGetRaw_kfSet_ne _ _ _ _ _ _ (Or.inr (show str "AlsaCard" ≠ str "SystemTheme" by decide)),
    kfGetRaw_kfSet_ne _ _ _ _ _ _ (Or.inr (show str "AlsaCard" ≠ str "Channel" by decide))]
  rw [commitKf7, prefs_set_string, hf6]
  exact kfGetRaw_kfSet_same f6 pnmixerG (str "AlsaCard") (escString ui.card)

theorem commitKf23_channel (f : KeyFile) (ui : PrefsUI) :
    kfGetRaw (commitKf23 (some f) ui) ui.card (str "Channel") =
      some (escString ui.channel) := by
  obtain ⟨f7, hf7⟩ : ∃ f7, commitKf7 (some f) ui = some f7 := ⟨_, rfl⟩
  rw [commitKf23]
  simp only [prefs_set_integer, prefs_set_boolean, prefs_set_string, prefs_set_double,
    prefs_set_channel]
  rw [kfGetRaw_kfSet_ne _ _ _ _ _ _ (Or.inr (show str "Channel" ≠ str "VolDownMods" by decide)),
    kfGetRaw_kfSet_ne _ _ _ _ _ _ (Or.inr (show str "Channel" ≠ str "VolDownKey" by decide)),
    kfGetRaw_kfSet_ne _ _ _ _ _ _ (Or.inr (show str "Channel" ≠ str "VolUpMods" by decide)),
    kfGetRaw_kfSet_ne _ _ _ _ _ _ (Or.inr (show str "Channel" ≠ str "VolUpKey" by decide)),
    kfGetRaw_kfSet_ne _ _ _ _ _ _ (Or.inr (show str "Channel" ≠ str "VolMuteMods" by decide)),
    kfGetRaw_kfSet_ne _ _ _ _ _ _ (Or.inr (show str "Channel" ≠ str "VolMuteKey" by decide)),
    kfGetRaw_kfSet_ne _ _ _ _ _ _ (Or.inr (show str "Channel" ≠ str "HotkeyVolumeStep" by decide)),
    kfGetRaw_kfSet_ne _ _ _ _ _ _ (Or.inr (show str "Channel" ≠ str "EnableHotKeys" by decide)),
    kfGetRaw_kfSet_ne _ _ _ _ _ _ (Or.inr (show str "Channel" ≠ str "NormalizeVolume" by decide)),
    kfGetRaw_kfSet_ne _ _ _ _ _ _ (Or.inr (show str "Channel" ≠ str "CustomCommand" by decide)),
    kfGetRaw_kfSet_ne _ _ _ _ _ _ (Or.inr (show str "Channel" ≠ str "MiddleClickAction" by decide)),
    kfGetRaw_kfSet_ne _ _ _ _ _ _ (Or.inr (show str "Channel" ≠ str "FineScrollStep" by decide)),
    kfGetRaw_kfSet_ne _ _ _ _ _ _ (Or.inr (show str "Channel" ≠ str "ScrollStep" by decide)),
    kfGetRaw_kfSet_ne _ _ _ _ _ _ (Or.inr (show str "Channel" ≠ str "VolumeControlCommand" by decide)),
    kfGetRaw_kfSet_ne _ _ _ _ _ _ (Or.inr (show str "Channel" ≠ str "SystemTheme" by decide)),
    hf7]
  exact kfGetRaw_kfSet_same f7 ui.card (str "Channel") (escString ui.channel)

theorem commitKf7_channel_pres (f : KeyFile) (ui : PrefsUI) :
    kfGetRaw (commitKf7 (some f) ui) ui.card (str "Channel") =
      kfGetRaw (some f) ui.card (str "Channel") := by
  rw [commitKf7, commitKf6]
  simp only [prefs_set_integer, prefs_set_boolean, prefs_set_string,
    prefs_set_vol_meter_colors]
  rw [kfGetRaw_kfSet_ne _ _ _ _ _ _ (Or.inr (show str "Channel" ≠ str "AlsaCard" by decide)),
    kfGetRaw_kfSet_ne _ _ _ _ _ _ (Or.inr (show str "Channel" ≠ str "VolMeterColor" by decide)),
    kfGetRaw_kfSet_ne _ _ _ _ _ _ (Or.inr (show str "Channel" ≠ str "VolMeterPos" by decide)),
    kfGetRaw_kfSet_ne _ _ _ _ _ _ (Or.inr (show str "Channel" ≠ str "DrawVolMeter" by decide)),
    kfGetRaw_kfSet_ne _ _ _ _ _ _ (Or.inr (show str "Channel" ≠ str "TextVolumePosition" by decide)),
    kfGetRaw_kfSet_ne _ _ _ _ _ _ (Or.inr (show str "Channel" ≠ str "DisplayTextVolume" by decide)),
    kfGetRaw_kfSet_ne _ _ _ _ _ _ (Or.inr (show str "Channel" ≠ str "SliderOrientation" by decide))]

/-! ## Per-type get-after-set lemmas -/

theorem prefs_get_boolean_after_set (f : KeyFile) (k : Str) (v dflt : Bool) :
    prefs_get_boolean (prefs_set_boolean (some f) k v) k dflt = v := by
  simp [prefs_set_boolean, kfSet, prefs_get_boolean, gkfGetBoolean,
    getValue_setValue_same, parseGbool_gboolEnc]

theorem prefs_get_integer_after_set (f : KeyFile) (k : Str) (v dflt : Int)
    (h1 : -2147483648 ≤ v) (h2 : v ≤ 2147483647) :
    prefs_get_integer (prefs_set_integer (some f) k v) k dflt = v := by
  simp [prefs_set_integer, kfSet, prefs_get_integer, gkfGetInteger,
    getValue_setValue_same, parseGint_gintEnc v h1 h2]

theorem prefs_get_double_after_set (f : KeyFile) (k : Str) (v dflt : DecD) :
    prefs_get_double (prefs_set_double (some f) k v) k dflt = v := by
  simp [prefs_set_double, kfSet, prefs_get_double, gkfGetDouble,
    getValue_setValue_same, parseGdouble_encDouble]

theorem prefs_get_string_after_set (f : KeyFile) (k v : Str) (dflt : Option Str) :
    prefs_get_string (prefs_set_string (some f) k v) k dflt = some v := by
  simp [prefs_set_string, kfSet, prefs_get_string, gkfGetString,
    getValue_setValue_same, unescapeLenient_escString]

/-! ## The claims -/

/-- C1: the claim says every typed getter returns the caller-supplied default
after a failed `load()`.  The code instead leaves the global key file NULL
after a failed load, and the GLib getters' precondition checks then return
the getters' guard values (FALSE, -1, -1.0, NULL) without setting the error,
so the wrapper does not substitute the default: with a malformed config file
on disk, `prefs_get_boolean("DisplayTextVolume", TRUE)` returns FALSE rather
than TRUE, `prefs_get_integer("ScrollStep", 5)` returns -1, the double
getter returns -1.0, and the string getter returns NULL. -/
theorem claim_C1_failed_load_returns_zero_values :
    prefs_load (some .bad) = none ∧
    prefs_get_boolean (prefs_load (some .bad)) (str "DisplayTextVolume") true = false ∧
    prefs_get_integer (prefs_load (some .bad)) (str "ScrollStep") 5 = -1 ∧
    prefs_get_double (prefs_load (some .bad)) (str "ScrollStep") ⟨5, 0⟩ = ⟨-1, 0⟩ ∧
    prefs_get_string (prefs_load (some .bad)) (str "AlsaCard") (some (str "default")) =
      none := by
  decide

/-- C2: the claim says the colour getter always returns exactly 3 components
each clamped into [0,1].  The code returns however many components were
stored when the list parses: with the five-component stored list
`2.5;0.5;0.5;0.5;2.5;` it returns five values, and the fifth one (index 4)
is the unclamped 2.5, whose value exceeds 1.  (For stored lists shorter than
3 the clamp loop even reads and writes past the allocation.) -/
theorem claim_C2_five_component_color_list :
    (prefs_get_vol_meter_colors
      (prefs_set_vol_meter_colors (prefs_load none) fiveColors)).length = 5 ∧
    (prefs_get_vol_meter_colors
      (prefs_set_vol_meter_colors (prefs_load none) fiveColors)).getD 4 ⟨0, 0⟩ =
        ⟨25, 1⟩ ∧
    10 ^ ((prefs_get_vol_meter_colors
      (prefs_set_vol_meter_colors (prefs_load none) fiveColors)).getD 4 ⟨0, 0⟩).e <
      ((prefs_get_vol_meter_colors
        (prefs_set_vol_meter_colors (prefs_load none) fiveColors)).getD 4 ⟨0, 0⟩).m := by
  decide

/-- C3 counterexample: on the Listening → Committed transition the exclusive
grab is NOT released exactly once — the key-release handler ungrabs and then
`acquire_hotkey` ungrabs again after `gtk_dialog_run` returns, so the
transition contains two ungrab calls, refuting "released exactly once" at
the concrete capture of action 0 with candidate "a". -/
theorem claim_C3_grab_released_twice :
    ¬((commitTransition 0 (str "a")).countP isUngrab = 1) := by
  decide

/-- C3 amended: on every Listening → Committed transition the grab release
is the very first action, it precedes the single staged-field write (both
ungrab calls do), but the grab is released twice, not exactly once. -/
theorem claim_C3_release_first_then_write (action : Nat) (label : Str) :
    (commitTransition action label).head? = some .ungrab ∧
    (commitTransition action label).countP isUngrab = 2 ∧
    (commitTransition action label).countP isWrite = 1 ∧
    ((commitTransition action label).takeWhile fun e => !isWrite e).countP isUngrab =
      2 := by
  refine ⟨rfl, ?_, ?_, ?_⟩ <;>
    simp [commitTransition, hotkey_released_effects, acquire_after_dialog,
      isUngrab, isWrite, List.countP_cons]

/-- C5: for every supported value type, `set_X(k,v); save(); load();
get_X(k,default)` returns `v`, independent of the supplied default (the
integer case needs `v` to be a gint, which the C type already guarantees).
`save` runs with the config directory present and a successful write, as the
claim's round trip presumes. -/
theorem claim_C5_set_save_load_get_roundtrip :
    (∀ (f : KeyFile) (k : Str) (v : Bool) (fs : Option FileData) (dflt : Bool),
      prefs_get_boolean (prefs_load
        (prefs_save (prefs_set_boolean (some f) k v) .isDir fs true).1) k dflt = v) ∧
    (∀ (f : KeyFile) (k : Str) (v : Int) (fs : Option FileData) (dflt : Int),
      -2147483648 ≤ v → v ≤ 2147483647 →
      prefs_get_integer (prefs_load
        (prefs_save (prefs_set_integer (some f) k v) .isDir fs true).1) k dflt = v) ∧
    (∀ (f : KeyFile) (k : Str) (v : DecD) (fs : Option FileData) (dflt : DecD),
      prefs_get_double (prefs_load
        (prefs_save (prefs_set_double (some f) k v) .isDir fs true).1) k dflt = v) ∧
    (∀ (f : KeyFile) (k : Str) (v : Str) (fs : Option FileData) (dflt : Option Str),
      prefs_get_string (prefs_load
        (prefs_save (prefs_set_string (some f) k v) .isDir fs true).1) k dflt =
          some v) := by
  refine ⟨fun f k v fs dflt => ?_, fun f k v fs dflt h1 h2 => ?_,
    fun f k v fs dflt => ?_, fun f k v fs dflt => ?_⟩
  · show prefs_get_boolean (prefs_set_boolean (some f) k v) k dflt = v
    exact prefs_get_boolean_after_set f k v dflt
  · show prefs_get_integer (prefs_set_integer (some f) k v) k dflt = v
    exact prefs_get_integer_after_set f k v dflt h1 h2
  · show prefs_get_double (prefs_set_double (some f) k v) k dflt = v
    exact prefs_get_double_after_set f k v dflt
  · show prefs_get_string (prefs_set_string (some f) k v) k dflt = some v
    exact prefs_get_string_after_set f k v dflt

theorem claim_C5_witness :
    prefs_get_integer (prefs_load
      (prefs_save (prefs_set_integer (some defaultKeyFile) (str "ScrollStep") 10)
        .isDir none true).1) (str "ScrollStep") 7 = 10 :=
  claim_C5_set_save_load_get_roundtrip.2.1 defaultKeyFile (str "ScrollStep") 10 none 7
    (by decide) (by decide)

/-- C6: spec-modelled save pathway (directory creation wired in front of the
write, as the spec's `save()` prescribes; the wiring itself lives outside
src/).  Saving serializes the full in-memory state as a whole-file replace
(the result is independent of the previous file content), creates the
containing directory when it is missing, and a directory-creation failure is
reported without being fatal: the write error is reported, the old file and
the in-memory state are untouched, and the operation returns normally. -/
theorem claim_C6_save_pathway (f : KeyFile) (fs : Option FileData) :
    (save_pathway (some f) .isDir fs true true).fs = some (.good f) ∧
    ((save_pathway (some f) .missing fs true true).dir = .isDir ∧
      (save_pathway (some f) .missing fs true true).dirError = false ∧
      (save_pathway (some f) .missing fs true true).fs = some (.good f)) ∧
    ((save_pathway (some f) .missing fs false true).dirError = true ∧
      (save_pathway (some f) .missing fs false true).fs = fs ∧
      (save_pathway (some f) .missing fs false true).writeError = true) ∧
    ((save_pathway (some f) .isFile fs true true).dirError = true ∧
      (save_pathway (some f) .isFile fs true true).fs = fs) := by
  exact ⟨rfl, ⟨rfl, rfl, rfl⟩, ⟨rfl, rfl, rfl⟩, ⟨rfl, rfl⟩⟩

/-- C7: during Listening, every key press is translated to canonical
accelerator text and overwrites the current candidate (the label always
shows the last press); and when the committed candidate equals the reserved
abort combination — whose canonical text is "<Primary>c", the GTK3 name of
Control+C — the staged binding becomes the "(None)" sentinel instead. -/
theorem claim_C7_capture_candidate_and_abort (init : Str) (presses : List KeyPress)
    (p : KeyPress) (action : Nat) :
    labelAfter init (presses ++ [p]) = rawToCanonical p ∧
    (rawToCanonical p = str "<Primary>c" →
      stagedText (commitTransition action (labelAfter init (presses ++ [p]))) =
        some (str "(None)")) := by
  have h1 : labelAfter init (presses ++ [p]) = rawToCanonical p := by
    rw [labelAfter, List.foldl_append]
    rfl
  refine ⟨h1, fun h2 => ?_⟩
  rw [h1, h2]
  simp [commitTransition, hotkey_released_effects, acquire_after_dialog, stagedText]
  decide

theorem claim_C7_witness :
    stagedText (commitTransition 0 (labelAfter []
      ([] ++ [⟨99, ⟨false, true, false, false, false, false⟩,
        ⟨false, false, false, false, false, false⟩⟩]))) = some (str "(None)") :=
  (claim_C7_capture_candidate_and_abort [] []
    ⟨99, ⟨false, true, false, false, false, false⟩,
      ⟨false, false, false, false, false, false⟩⟩ 0).2 (by decide)

/-- C8 counterexample: `prefs_get_channel` does NOT share the string
getter's default semantics on every input.  On a stored Channel value with
an invalid escape sequence (`ab\q`), `g_key_file_get_string` sets the error
but returns the partially-unescaped string; the default-substituting getter
therefore returns the default (NULL), while `prefs_get_channel`, which
discards the error, returns that partially-unescaped string — the two
disagree at this concrete store. -/
theorem claim_C8_invalid_escape_differs :
    prefs_get_channel (some kfC8) (some (str "CardX")) = some (str "ab\\q") ∧
    getStringIn (some kfC8) (str "CardX") (str "Channel") none = none ∧
    ¬(prefs_get_channel (some kfC8) (some (str "CardX")) =
      getStringIn (some kfC8) (str "CardX") (str "Channel") none) := by
  decide

/-- C8 amended: `prefs_get_string` is the section-generic string-get at the
global section, and `prefs_get_channel` matches the string getter's
absent/default semantics for an absent Channel key or section (both return
the NULL default) and for a NULL card (NULL) — never an undefined result;
but on a stored Channel value carrying an invalid escape sequence the two
differ: the default-substituting getter returns the default while
`prefs_get_channel`, its GLib error discarded, returns the
partially-unescaped string. -/
theorem claim_C8_channel_same_semantics :
    (∀ (kf : Option KeyFile) (key : Str) (dflt : Option Str),
      prefs_get_string kf key dflt = getStringIn kf pnmixerG key dflt) ∧
    (∀ (f : KeyFile) (c : Str), getValue f c (str "Channel") = none →
      prefs_get_channel (some f) (some c) = none ∧
      getStringIn (some f) c (str "Channel") none = none) ∧
    (∀ kf : Option KeyFile, prefs_get_channel kf none = none) ∧
    (∀ (f : KeyFile) (c raw : Str), getValue f c (str "Channel") = some raw →
      (unescapeLenient raw).2 = true →
      prefs_get_channel (some f) (some c) = some (unescapeLenient raw).1 ∧
      getStringIn (some f) c (str "Channel") none = none) := by
  refine ⟨fun kf key dflt => rfl, fun f c h => ?_, fun kf => rfl,
    fun f c raw h herr => ?_⟩
  · constructor
    · simp [prefs_get_channel, gkfGetString, h]
    · simp [getStringIn, gkfGetString, h]
  · constructor
    · simp [prefs_get_channel, gkfGetString, h]
    · simp [getStringIn, gkfGetString, h, herr]

theorem claim_C8_witness :
    prefs_get_channel (some kfC8) (some (str "CardX")) =
      some (unescapeLenient (str "ab\\q")).1 ∧
    getStringIn (some kfC8) (str "CardX") (str "Channel") none = none :=
  claim_C8_channel_same_semantics.2.2.2 kfC8 (str "CardX") (str "ab\\q")
    (by decide) (by decide)

/-- C9: when no AlsaCard value is stored before the commit (the snapshot
read returns NULL), `on_ok_button_clicked` never sets the `alsa_change`
flag, so `apply_prefs` performs no ALSA reinitialization, for every selected
card and channel. -/
theorem claim_C9_no_stored_card_no_reinit (kf0 : Option KeyFile) (dir : DirState)
    (fs : Option FileData) (writeOk : Bool) (ui : PrefsUI)
    (h : prefs_get_string kf0 (str "AlsaCard") none = none) :
    (on_ok_button_clicked kf0 dir fs writeOk ui).alsaChange = 0 ∧
    AppEffect.alsaReinit ∉ (on_ok_button_clicked kf0 dir fs writeOk ui).effects := by
  have hoc : commitOldCard kf0 ui = none := by rw [commitOldCard_eq, h]
  have ha : commitAlsaChange kf0 ui = 0 := commitAlsaChange_of_no_card kf0 ui hoc
  constructor
  · show commitAlsaChange kf0 ui = 0
    exact ha
  · show AppEffect.alsaReinit ∉ apply_prefs (commitKf23 kf0 ui) (commitAlsaChange kf0 ui)
    rw [ha]
    exact alsaReinit_not_mem_apply_prefs_zero _

theorem claim_C9_witness :
    (on_ok_button_clicked (some ⟨[]⟩) .isDir none true uiC4).alsaChange = 0 ∧
    AppEffect.alsaReinit ∉ (on_ok_button_clicked (some ⟨[]⟩) .isDir none true uiC4).effects :=
  claim_C9_no_stored_card_no_reinit (some ⟨[]⟩) .isDir none true uiC4 (by decide)

/-- C10: whenever preferences are applied with the hotkeys-enabled flag
false, the rebind operation `grab_keys` is invoked with the unset sentinel
-1 for every key and zero modifiers (and step 1), regardless of which
accelerator values are stored. -/
theorem claim_C10_hotkeys_disabled_ungrabs_all (kf : Option KeyFile) (a : Int)
    (h : prefs_get_boolean kf (str "EnableHotKeys") false = false) :
    AppEffect.grabKeys (-1) (-1) (-1) 0 0 0 1 ∈ apply_prefs kf a := by
  have hg := grabEffect_disabled kf h
  rw [← hg]
  exact grabEffect_mem_apply_prefs kf a

theorem claim_C10_witness :
    AppEffect.grabKeys (-1) (-1) (-1) 0 0 0 1 ∈ apply_prefs (prefs_load none) 0 :=
  claim_C10_hotkeys_disabled_ungrabs_all (prefs_load none) 0 (by decide)

/-- C4 counterexample: a commit that changes only the meter colour (the
store before and after differ exactly in the VolMeterColor entry) still
invokes the `grab_keys` hotkey rebind — `apply_prefs` re-arms or un-arms the
hotkeys unconditionally on every commit — so the claim's "excluding
HotkeyRebind" is false at this concrete input. -/
theorem claim_C4_color_only_commit_rebinds_hotkeys :
    changesOnlyColorB (some kfC4)
      (on_ok_button_clicked (some kfC4) .isDir none true uiC4).kf = true ∧
    (on_ok_button_clicked (some kfC4) .isDir none true uiC4).effects.countP
      isGrabKeysE = 1 := by
  decide

/-- C4 amended: (a) when the staged audio device differs from the
snapshotted stored device (`old_card`, callbacks.c:238-240), the commit
fires the ALSA reinitialization; (b) likewise when the staged channel
differs from the snapshotted stored channel of the old device
(`old_channel`, callbacks.c:246-254); (c) a commit that changes only the
meter colour performs the view refresh and no ALSA reinitialization, but
the hotkey rebind `grab_keys` is still invoked (exactly once) — it fires on
every commit, so HotkeyRebind is not excluded. -/
theorem claim_C4_audio_diff_and_color_only :
    (∀ (kf0 : Option KeyFile) (dir : DirState) (fs : Option FileData) (writeOk : Bool)
        (ui : PrefsUI) (oc : Str),
      commitOldCard kf0 ui = some oc → oc ≠ ui.card →
      AppEffect.alsaReinit ∈ (on_ok_button_clicked kf0 dir fs writeOk ui).effects) ∧
    (∀ (kf0 : Option KeyFile) (dir : DirState) (fs : Option FileData) (writeOk : Bool)
        (ui : PrefsUI) (ch : Str),
      commitOldChannel kf0 ui = some ch → ch ≠ ui.channel →
      AppEffect.alsaReinit ∈ (on_ok_button_clicked kf0 dir fs writeOk ui).effects) ∧
    (∀ (kf0 : Option KeyFile) (dir : DirState) (fs : Option FileData) (writeOk : Bool)
        (ui : PrefsUI),
      changesOnlyColorB kf0 (on_ok_button_clicked kf0 dir fs writeOk ui).kf = true →
      AppEffect.updateStatusIcons ∈ (on_ok_button_clicked kf0 dir fs writeOk ui).effects ∧
      AppEffect.alsaReinit ∉ (on_ok_button_clicked kf0 dir fs writeOk ui).effects ∧
      (on_ok_button_clicked kf0 dir fs writeOk ui).effects.countP isGrabKeysE = 1) := by
  refine ⟨?_, ?_, ?_⟩
  · intro kf0 dir fs writeOk ui oc hoc hne
    have h2 : commitAlsaChange kf0 ui = 1 := commitAlsaChange_of_card_ne kf0 ui oc hoc hne
    show AppEffect.alsaReinit ∈ apply_prefs (commitKf23 kf0 ui) (commitAlsaChange kf0 ui)
    rw [h2]
    exact alsaReinit_mem_apply_prefs_one _
  · intro kf0 dir fs writeOk ui ch hch hne
    have h2 : commitAlsaChange kf0 ui = 1 :=
      commitAlsaChange_of_channel_ne kf0 ui ch hch hne
    show AppEffect.alsaReinit ∈ apply_prefs (commitKf23 kf0 ui) (commitAlsaChange kf0 ui)
    rw [h2]
    exact alsaReinit_mem_apply_prefs_one _
  · intro kf0 dir fs writeOk ui hB
    have hz : commitAlsaChange kf0 ui = 0 := by
      cases kf0 with
      | none =>
        apply commitAlsaChange_of_no_card
        rw [commitOldCard_eq]
        rfl
      | some f =>
        obtain ⟨f23, hf23⟩ : ∃ x, commitKf23 (some f) ui = some x := ⟨_, rfl⟩
        have hB2 : changesOnlyColorB (some f) (some f23) = true := by
          have hkf : (on_ok_button_clicked (some f) dir fs writeOk ui).kf =
              commitKf23 (some f) ui := rfl
          rw [hkf, hf23] at hB
          exact hB
        have hEr : eraseKey f pnmixerG (str "VolMeterColor") =
            eraseKey f23 pnmixerG (str "VolMeterColor") := by
          simp only [changesOnlyColorB, Bool.and_eq_true, decide_eq_true_eq] at hB2
          exact hB2.1
        have hAc : getValue f23 pnmixerG (str "AlsaCard") = some (escString ui.card) := by
          have hx := commitKf23_alsacard f ui
          rw [hf23, kfGetRaw_some] at hx
          exact hx
        have hoc : commitOldCard (some f) ui = some ui.card := by
          rw [commitOldCard_eq, prefs_get_string_none_eq, kfGetRaw_some,
            changesOnlyColorB_getValue f f23 hEr pnmixerG (str "AlsaCard")
              (Or.inr (by decide)), hAc]
          simp [unescapeLenient_escString]
        have hCh : getValue f23 ui.card (str "Channel") = some (escString ui.channel) := by
          have hx := commitKf23_channel f ui
          rw [hf23, kfGetRaw_some] at hx
          exact hx
        have hstep : commitOldChannel (some f) ui =
            prefs_get_channel (commitKf7 (some f) ui) (some ui.card) := by
          rw [commitOldChannel, hoc]
        have hochan : commitOldChannel (some f) ui = some ui.channel := by
          rw [hstep, prefs_get_channel_eq, commitKf7_channel_pres, kfGetRaw_some,
            changesOnlyColorB_getValue f f23 hEr ui.card (str "Channel")
              (Or.inr (by decide)), hCh]
          simp [unescapeLenient_escString]
        simp [commitAlsaChange, hoc, hochan]
    refine ⟨?_, ?_, ?_⟩
    · show AppEffect.updateStatusIcons ∈
        apply_prefs (commitKf23 kf0 ui) (commitAlsaChange kf0 ui)
      exact apply_prefs_view_mem _ _
    · show AppEffect.alsaReinit ∉
        apply_prefs (commitKf23 kf0 ui) (commitAlsaChange kf0 ui)
      rw [hz]
      exact alsaReinit_not_mem_apply_prefs_zero _
    · show (apply_prefs (commitKf23 kf0 ui) (commitAlsaChange kf0 ui)).countP
        isGrabKeysE = 1
      exact apply_prefs_grab_count _ _

theorem claim_C4_witness :
    AppEffect.updateStatusIcons ∈
      (on_ok_button_clicked (some kfC4) .isDir none true uiC4).effects ∧
    AppEffect.alsaReinit ∉
      (on_ok_button_clicked (some kfC4) .isDir none true uiC4).effects ∧
    (on_ok_button_clicked (some kfC4) .isDir none true uiC4).effects.countP
      isGrabKeysE = 1 :=
  claim_C4_audio_diff_and_color_only.2.2 (some kfC4) .isDir none true uiC4 (by decide)
